import Mathlib

/-!
# Verification of the mmorpg-henry simulation core

A shallow embedding of the authoritative server simulation of the
`mmorpg-henry` repository: the movement/collision resolver
(`pkg/server/systems/movement.go`), the AI behavior engine
(`pkg/server/systems/ai.go`), the combat/projectile resolver and
respawn logic (`GameServer` in the server package), the inventory and
equipment operations (`pkg/items/inventory.go` and
`GameServer.equipItemInternal`), and the outbound snapshot builder
(`pkg/server/systems/network.go`).

Conventions of the embedding:
* Go `float64` values are modelled as exact rationals `ℚ`.  All float
  arithmetic appearing in the embedded code paths is affine arithmetic
  and comparisons, which the rationals model exactly; the two
  irrational operations that feed a comparison (`math.Sqrt` in a
  distance test, and a normalised component compared against `0.5`)
  are replaced by the algebraically equivalent rational comparisons,
  documented at their definitions.
* Go `int` is modelled as `ℤ`, entity identifiers (`uint64`) as `ℕ`
  with `0` meaning "no entity", strings as `String`.
* The ECS `GetComponent` returns a detached copy and systems write
  back explicitly, so one tick of a system over one entity is a pure
  function from the entity's component values to the updated values.
-/

/-- Go's `int(math.Floor(q))` on a finite float: the mathematical floor. -/
def goFloor (q : ℚ) : ℤ := Int.floor q

/-- Go's `int(q)` conversion (truncation toward zero). -/
def goTrunc (q : ℚ) : ℤ := Int.tdiv q.num q.den

/-- `sqrtLe s r` holds exactly when `math.Sqrt s <= r` does over the
reals, for `s ≥ 0`: since `√s ≤ r ↔ 0 ≤ r ∧ s ≤ r²`, the comparison is
expressed without the irrational square root. -/
def sqrtLe (s r : ℚ) : Bool := decide (0 ≤ r) && decide (s ≤ r ^ 2)

/-- The integer range `[a, b]` as a list (empty when `b < a`), the
index set of a Go `for v := a; v <= b; v++` loop. -/
def intRange (a b : ℤ) : List ℤ :=
  (List.range (b - a + 1).toNat).map (fun (i : ℕ) => a + (i : ℤ))

/-! ## Tile and map model (`pkg/shared/world`, `pkg/shared/config`) -/

/-- `world.TileType` from `pkg/shared/world/tiles.go`. -/
inductive TileType where
  | grass | water | tree
  | waterEdgeTop | waterEdgeBottom | waterEdgeLeft | waterEdgeRight
  | waterCornerTL | waterCornerTR | waterCornerBL | waterCornerBR
  | waterDeep | waterShallow | grassFlowers | sand | dirtPath
  | cobblePath | snow | ice | lava | stoneFloor | woodFloor
  deriving DecidableEq, Repr

/-- `TileType.IsSolid`. -/
def TileType.isSolid : TileType → Bool
  | .water | .waterDeep | .lava | .tree
  | .waterCornerBL | .waterCornerBR | .waterCornerTL | .waterCornerTR
  | .waterEdgeBottom | .waterEdgeLeft | .waterEdgeRight | .waterEdgeTop => true
  | _ => false

/-- `world.Map`: a rectangular ground-tile grid and a parallel
object-id grid.  The source stores slices indexed only after a bounds
check, so total functions over `ℤ × ℤ` are a faithful model. -/
structure GameMap where
  width : ℤ
  height : ℤ
  tiles : ℤ → ℤ → TileType
  objects : ℤ → ℤ → ℤ

/-- `config.TileSize` (`pkg/shared/config`). -/
def tileSize : ℚ := 32

/-! ## Movement & collision resolver (`pkg/server/systems/movement.go`) -/

/-- `MovementSystem.rectOverlap`. -/
def rectOverlap (x1 y1 w1 h1 x2 y2 w2 h2 : ℚ) : Bool :=
  decide (x1 < x2 + w2) && decide (x1 + w1 > x2) &&
  decide (y1 < y2 + h2) && decide (y1 + h1 > y2)

/-- `MovementSystem.isTileSolid`: full-tile blocking for most solid
tiles, half-tile blocking for the water edge/corner tiles, and a
centered half-size box for `tree` (`halfTile = tileSize / 2`). -/
def isTileSolid (tile : TileType) (tx ty : ℤ) (x y w h : ℚ) : Bool :=
  let tileX : ℚ := (tx : ℚ) * tileSize
  let tileY : ℚ := (ty : ℚ) * tileSize
  let localX := x - tileX
  let localY := y - tileY
  let halfTile := tileSize / 2
  if tile.isSolid then
    match tile with
    | .waterEdgeTop => decide (localY + h > halfTile)
    | .waterEdgeBottom => decide (localY < halfTile)
    | .waterEdgeLeft => decide (localX + w > halfTile)
    | .waterEdgeRight => decide (localX < halfTile)
    | .waterCornerTL => decide (localX + w > halfTile) && decide (localY + h > halfTile)
    | .waterCornerTR => decide (localX < halfTile) && decide (localY + h > halfTile)
    | .waterCornerBL => decide (localX + w > halfTile) && decide (localY < halfTile)
    | .waterCornerBR => decide (localX < halfTile) && decide (localY < halfTile)
    | .tree =>
        let treeSize := tileSize / 2
        let treeOffset := (tileSize - treeSize) / 2
        rectOverlap localX localY w h treeOffset treeOffset treeSize treeSize
    | _ => true
  else
    false

/-- One cell of the `collidesAt` probe loop: out-of-bounds is a
collision, else a solid-tile test, else the centered half-size object
box test (`treeSize = tileSize / 2`). -/
def cellCollides (m : GameMap) (tx ty : ℤ) (x y w h : ℚ) : Bool :=
  if tx < 0 ∨ m.width ≤ tx ∨ ty < 0 ∨ m.height ≤ ty then
    true
  else if isTileSolid (m.tiles ty tx) tx ty x y w h then
    true
  else if m.objects ty tx > 0 then
    let treeSize := tileSize / 2
    let off := (tileSize - treeSize) / 2
    let obsX := (tx : ℚ) * tileSize + off
    let obsY := (ty : ℚ) * tileSize + off
    rectOverlap x y w h obsX obsY treeSize treeSize
  else
    false

/-- `MovementSystem.collidesAt`: a missing map for the level is a
collision; otherwise every tile the probe box may overlap is tested
(the source's early-returning double loop computed as `any`). -/
def collidesAt (maps : ℤ → Option GameMap) (z : ℤ) (x y w h : ℚ) : Bool :=
  match maps z with
  | none => true
  | some m =>
      let startTX := goFloor (x / tileSize)
      let startTY := goFloor (y / tileSize)
      let endTX := goFloor ((x + w) / tileSize)
      let endTY := goFloor ((y + h) / tileSize)
      (intRange startTY endTY).any fun ty =>
        (intRange startTX endTX).any fun tx =>
          cellCollides m tx ty x y w h

/-- Another entity as seen by `collidesWithEntities`: queried by
Physics, with its Transform (position and level) and whether it is a
projectile. -/
structure OtherEntity where
  id : ℕ
  isProjectile : Bool
  z : ℤ
  x : ℚ
  y : ℚ

/-- `MovementSystem.collidesWithEntities`: overlap against every other
non-projectile entity's 24×24 collision box on the same level. -/
def collidesWithEntities (others : List OtherEntity) (selfId : ℕ) (z : ℤ)
    (x y w h : ℚ) : Bool :=
  others.any fun o =>
    if o.id = selfId then false
    else if o.isProjectile then false
    else if o.z ≠ z then false
    else
      let boxSize : ℚ := 24
      let off := (tileSize - boxSize) / 2
      rectOverlap x y w h (o.x + off) (o.y + off) boxSize boxSize

/-- `components.InputComponent` (directional flags, attack flag, run
toggle, cursor position, selected ability).  The `HotbarTriggers`
array is not read by any embedded code path and is omitted. -/
structure InputComponent where
  up : Bool := false
  down : Bool := false
  left : Bool := false
  right : Bool := false
  attack : Bool := false
  isRunning : Bool := false
  mouseX : ℚ := 0
  mouseY : ℚ := 0
  activeSpell : String := ""
  deriving DecidableEq, Repr

/-- `components.TransformComponent` (rotation is omitted: it is
written only by the movement system's `math.Atan2` facing update,
which no embedded claim reads and whose value never feeds back into
position, level, or any other embedded state). -/
structure TransformComponent where
  x : ℚ
  y : ℚ
  z : ℤ := 0
  deriving DecidableEq, Repr

/-- `MovementSystem.UpdateEntityMovement`, position part: derive the
movement vector from the flags (later flags override, diagonals scaled
by `0.7071`), double speed when running, then commit the X axis and
afterwards the Y axis, each only if the candidate 24×24 box (offset 4
into the sprite cell) collides with neither map nor entities. -/
def moveDelta (input : InputComponent) (speed : ℚ) : ℚ × ℚ :=
  let dy : ℚ := if input.down then 1 else if input.up then -1 else 0
  let dx : ℚ := if input.right then 1 else if input.left then -1 else 0
  let diagonal := dx ≠ 0 ∧ dy ≠ 0
  let dx := if diagonal then dx * 0.7071 else dx
  let dy := if diagonal then dy * 0.7071 else dy
  let speed := if input.isRunning then speed * 2 else speed
  (dx * speed, dy * speed)

/-- The blocking test applied to a candidate position during
`UpdateEntityMovement`: the candidate 24×24 collision box (offset
`(TileSize − 24)/2` into the sprite cell) overlaps a solid map tile,
a solid map object, or another non-projectile entity's box on the
same level. -/
def moveBlocked (maps : ℤ → Option GameMap) (others : List OtherEntity)
    (selfId : ℕ) (z : ℤ) (x y : ℚ) : Bool :=
  let boxSize : ℚ := 24
  let off := (tileSize - boxSize) / 2
  collidesAt maps z (x + off) (y + off) boxSize boxSize ||
  collidesWithEntities others selfId z (x + off) (y + off) boxSize boxSize

def updateEntityMovement (maps : ℤ → Option GameMap) (others : List OtherEntity)
    (selfId : ℕ) (input : InputComponent) (t : TransformComponent) (speed : ℚ) :
    TransformComponent :=
  let d := moveDelta input speed
  let boxSize : ℚ := 24
  let off := (tileSize - boxSize) / 2
  let z := t.z
  let x1 :=
    if !collidesAt maps z (t.x + d.1 + off) (t.y + off) boxSize boxSize &&
       !collidesWithEntities others selfId z (t.x + d.1 + off) (t.y + off) boxSize boxSize then
      t.x + d.1
    else
      t.x
  let y1 :=
    if !collidesAt maps z (x1 + off) (t.y + d.2 + off) boxSize boxSize &&
       !collidesWithEntities others selfId z (x1 + off) (t.y + d.2 + off) boxSize boxSize then
      t.y + d.2
    else
      t.y
  { t with x := x1, y := y1 }

/-! ## AI behavior engine (`pkg/server/systems/ai.go`) -/

/-- `components.AIComponent`. -/
structure AIComponent where
  aiType : String := ""
  state : String
  stateTimer : ℚ := 0
  moveDirection : ℤ := 0
  targetID : ℕ := 0
  isAggressive : Bool := false
  faction : ℤ := 0
  path : List (ℚ × ℚ) := []
  pathTimer : ℚ := 0
  spawnX : ℚ := 0
  spawnY : ℚ := 0
  leashRange : ℚ := 0
  deriving DecidableEq, Repr

/-- The per-tick, per-entity environment of `AISystem.Update`: the
values the system reads from the world besides the entity's own
AI/Input/Transform components.  `hasLOS` and `findPathResult` stand
for the results of `s.HasLineOfSight` and `s.FindPath` (whose interior
ray stepping divides by a floating square root and is not used by any
claim); `randIdle`/`randTimer`/`randDir` stand for the `math/rand`
draws of `pickNewState`. -/
structure AIEnv where
  targetTransform : Option TransformComponent := none
  targetSprite : Option (ℚ × ℚ) := none
  selfSprite : Option (ℚ × ℚ) := none
  weaponRange : Option ℚ := none
  hasLOS : Bool := true
  findPathResult : List (ℚ × ℚ) := []
  randIdle : Bool := true
  randTimer : ℚ := 1
  randDir : ℤ := 0
  deriving DecidableEq, Repr

/-- `AISystem.getEntityCenter`: the visual center, with a 32×32
default footprint when the entity has no Sprite component. -/
def entityCenter (t : TransformComponent) (sprite : Option (ℚ × ℚ)) : ℚ × ℚ :=
  let w := (sprite.map Prod.fst).getD 32
  let h := (sprite.map Prod.snd).getD 32
  (t.x + w / 2, t.y + h / 2)

/-- `a/√(a² + b²) > 0.5` expressed rationally: for the real division
it is equivalent to `0 < a ∧ b² < 3·a²` (and `false` when
`a = b = 0`, matching the source, which skips normalisation there so
the compared component is `0`). -/
def normGtHalf (a b : ℚ) : Bool := decide (0 < a) && decide (b ^ 2 < 3 * a ^ 2)

/-- `a/√(a² + b²) < -0.5` expressed rationally (see `normGtHalf`). -/
def normLtNegHalf (a b : ℚ) : Bool := decide (a < 0) && decide (b ^ 2 < 3 * a ^ 2)

/-- The chase-branch steering of `AISystem.Update` (lines 163–197):
dominant axis gets a hard flag, the secondary axis a flag only past a
0.5 normalised magnitude.  `dx`/`dy` is the raw vector toward the move
target; the source normalises it first, which changes none of the
comparisons (see `normGtHalf`). -/
def applyChaseSteering (input : InputComponent) (dx dy : ℚ) : InputComponent :=
  if |dx| > |dy| then
    let input := if dx > 0 then { input with right := true } else { input with left := true }
    if normGtHalf dy dx then { input with down := true }
    else if normLtNegHalf dy dx then { input with up := true }
    else input
  else
    let input := if dy > 0 then { input with down := true } else { input with up := true }
    if normGtHalf dx dy then { input with right := true }
    else if normLtNegHalf dx dy then { input with left := true }
    else input

/-- The return-branch steering of `AISystem.Update` (lines 254–266):
cardinal only, dominant axis. -/
def applyReturnSteering (input : InputComponent) (dx dy : ℚ) : InputComponent :=
  if |dx| > |dy| then
    if dx > 0 then { input with right := true } else { input with left := true }
  else
    if dy > 0 then { input with down := true } else { input with up := true }

/-- Path following shared by the chase and return branches: take the
head waypoint; when within 10px (squared distance < 100) drop it and
aim at the next waypoint if one exists, else keep aiming at the
reached one.  Returns the move target and the remaining path, given
the fallback target used when the path is empty. -/
def followPath (t : TransformComponent) (path : List (ℚ × ℚ)) (fallback : ℚ × ℚ) :
    (ℚ × ℚ) × List (ℚ × ℚ) :=
  match path with
  | [] => (fallback, [])
  | p :: rest =>
      let mdx := p.1 - t.x
      let mdy := p.2 - t.y
      if mdx ^ 2 + mdy ^ 2 < 100 then
        match rest with
        | [] => (p, rest)
        | q :: _ => (q, rest)
      else
        (p, p :: rest)

/-- `AISystem.pickNewState`: coin-flip between `idle` and `move`, each
with a random 1–3s duration (the draws are supplied by `AIEnv`). -/
def pickNewState (env : AIEnv) (ai : AIComponent) : AIComponent :=
  if env.randIdle then
    { ai with state := "idle", stateTimer := env.randTimer }
  else
    { ai with state := "move", stateTimer := env.randTimer, moveDirection := env.randDir }

/-- `AISystem.applyWanderState`: in the `move` state press the flag of
the wander direction and project the aim point 100px along it. -/
def applyWanderState (ai : AIComponent) (input : InputComponent)
    (t : TransformComponent) : InputComponent :=
  if ai.state = "move" then
    if ai.moveDirection = 0 then
      { input with up := true, mouseX := t.x, mouseY := t.y - 100 }
    else if ai.moveDirection = 1 then
      { input with down := true, mouseX := t.x, mouseY := t.y + 100 }
    else if ai.moveDirection = 2 then
      { input with left := true, mouseX := t.x - 100, mouseY := t.y }
    else if ai.moveDirection = 3 then
      { input with right := true, mouseX := t.x + 100, mouseY := t.y }
    else input
  else input

/-- The chase branch of `AISystem.Update` (lines 118–198), entered
with the target valid and `canAttack` false. -/
def aiChase (env : AIEnv) (dt : ℚ) (ai : AIComponent) (input : InputComponent)
    (t : TransformComponent) (tt : TransformComponent) :
    AIComponent × InputComponent :=
  let pathTimer1 := ai.pathTimer - dt
  if env.hasLOS then
    let ai := { ai with state := "chase", pathTimer := pathTimer1, path := [] }
    let input := applyChaseSteering input (tt.x - t.x) (tt.y - t.y)
    (ai, input)
  else
    let replan := decide (pathTimer1 ≤ 0) || decide (ai.path = [])
    let path1 := if replan then env.findPathResult else ai.path
    let pathTimer2 := if replan then (0.5 : ℚ) else pathTimer1
    let r := followPath t path1 (tt.x, tt.y)
    let ai := { ai with state := "chase", pathTimer := pathTimer2, path := r.2 }
    let input := applyChaseSteering input (r.1.1 - t.x) (r.1.2 - t.y)
    (ai, input)

/-- The `return` branch of `AISystem.Update` (lines 200–267). -/
def aiReturn (env : AIEnv) (dt : ℚ) (ai : AIComponent) (input : InputComponent)
    (t : TransformComponent) : AIComponent × InputComponent :=
  let ddx := ai.spawnX - t.x
  let ddy := ai.spawnY - t.y
  if ddx ^ 2 + ddy ^ 2 < 50 * 50 then
    ({ ai with state := "wander", stateTimer := 2 }, input)
  else
    let pathTimer1 := ai.pathTimer - dt
    let replan := decide (pathTimer1 ≤ 0) || decide (ai.path = [])
    let path1 := if replan then env.findPathResult else ai.path
    let pathTimer2 := if replan then (1 : ℚ) else pathTimer1
    let r := followPath t path1 (ai.spawnX, ai.spawnY)
    let ai := { ai with pathTimer := pathTimer2, path := r.2 }
    let input := applyReturnSteering input (r.1.1 - t.x) (r.1.2 - t.y)
    (ai, input)

/-- The wander branch of `AISystem.Update` (lines 269–286): leash
check first, else tick the state timer, re-roll the wander state on
expiry, and press the wander movement flag. -/
def aiWander (env : AIEnv) (dt : ℚ) (ai : AIComponent) (input : InputComponent)
    (t : TransformComponent) : AIComponent × InputComponent :=
  let dxSpawn := t.x - ai.spawnX
  let dySpawn := t.y - ai.spawnY
  if dxSpawn ^ 2 + dySpawn ^ 2 > ai.leashRange ^ 2 then
    ({ ai with state := "return", targetID := 0, path := [] }, input)
  else
    let ai := { ai with stateTimer := ai.stateTimer - dt }
    let ai := if ai.stateTimer ≤ 0 then pickNewState env ai else ai
    (ai, applyWanderState ai input t)

/-- One entity's evaluation inside `AISystem.Update` (the loop body
after the missing-component and missing-map skips, lines 41–290).
Returns the written-back AI and Input components plus the abort flag:
`true` when the targeted-branch leash check executed the source's
`return` statement, which exits `AISystem.Update` itself. -/
def aiStep (env : AIEnv) (dt : ℚ) (ai0 : AIComponent) (input0 : InputComponent)
    (t : TransformComponent) : AIComponent × InputComponent × Bool :=
  let input := { input0 with up := false, down := false, left := false,
                             right := false, attack := false }
  if ai0.targetID ≠ 0 then
    match env.targetTransform with
    | none => ({ ai0 with targetID := 0, state := "wander" }, input, false)
    | some tt =>
      if tt.z ≠ t.z then
        ({ ai0 with targetID := 0, state := "wander" }, input, false)
      else
        let c := entityCenter t env.selfSprite
        let cT := entityCenter tt env.targetSprite
        let dxC := cT.1 - c.1
        let dyC := cT.2 - c.2
        let distSq := dxC ^ 2 + dyC ^ 2
        let input := { input with mouseX := cT.1, mouseY := cT.2 }
        let ar :=
          match env.weaponRange with
          | none => ((50 : ℚ), false)
          | some r => (r * 0.8, decide (r > 60))
        let canAttack := sqrtLe distSq ar.1 && (!ar.2 || env.hasLOS)
        let dxSpawn := t.x - ai0.spawnX
        let dySpawn := t.y - ai0.spawnY
        if dxSpawn ^ 2 + dySpawn ^ 2 > ai0.leashRange ^ 2 then
          ({ ai0 with state := "return", targetID := 0, path := [] }, input, true)
        else if canAttack then
          ({ ai0 with state := "attack" }, { input with attack := true }, false)
        else
          let r := aiChase env dt ai0 input t tt
          (r.1, r.2, false)
  else if ai0.state = "return" then
    let r := aiReturn env dt ai0 input t
    (r.1, r.2, false)
  else
    let r := aiWander env dt ai0 input t
    (r.1, r.2, false)

/-- One row of the `AISystem.Update` iteration: an entity returned by
`Query[AIComponent]` with the components the loop fetches, whether a
map is loaded for its level, and its per-tick environment. -/
structure AIEntityRow where
  id : ℕ
  ai : Option AIComponent
  input : Option InputComponent
  transform : Option TransformComponent
  mapExists : Bool := true
  env : AIEnv
  deriving DecidableEq, Repr

/-- `AISystem.Update`: evaluate each AI-bearing entity in iteration
order, skipping entities with missing components or an unloaded map;
when one entity's targeted-branch leash check fires, its components
are saved and the source's `return` exits the whole update, leaving
every later entity untouched for the tick. -/
def aiSystemUpdate (dt : ℚ) : List AIEntityRow → List AIEntityRow
  | [] => []
  | e :: rest =>
    match e.ai, e.input, e.transform with
    | some ai, some input, some t =>
      if e.mapExists then
        let r := aiStep e.env dt ai input t
        let e' := { e with ai := some r.1, input := some r.2.1 }
        if r.2.2 then e' :: rest
        else e' :: aiSystemUpdate dt rest
      else e :: aiSystemUpdate dt rest
    | _, _, _ => e :: aiSystemUpdate dt rest

/-! ## Items (`pkg/items`) -/

/-- `components.AttackType`. -/
inductive AttackType where
  | melee | ranged
  deriving DecidableEq, Repr

/-- `components.AttackComponent` as used for static weapon stats
(`ItemDefinition.WeaponStats`). -/
structure WeaponStats where
  damage : ℚ
  range : ℚ
  cooldown : ℚ
  attackType : AttackType
  deriving DecidableEq, Repr

/-- `items.ItemDefinition` (static registry record).  A Go definition
registered without an `EquipmentSlot` field gets the zero value `0`. -/
structure ItemDefinition where
  id : String
  weaponStats : Option WeaponStats := none
  equipmentSlot : ℤ := 0
  deriving DecidableEq, Repr

/-- `items.Get` over the registry populated by the `init` functions of
`weapons.go`, `consumables.go` and `miscelanous.go`. -/
def itemsGet (id : String) : Option ItemDefinition :=
  if id = "sword_starter" then
    some { id := "sword_starter",
           weaponStats := some { damage := 20, range := 60, cooldown := 0.8,
                                 attackType := .melee },
           equipmentSlot := 5 }
  else if id = "bow_starter" then
    some { id := "bow_starter",
           weaponStats := some { damage := 10, range := 400, cooldown := 0.5,
                                 attackType := .ranged },
           equipmentSlot := 5 }
  else if id = "potion_health_small" then
    some { id := "potion_health_small", equipmentSlot := -1 }
  else if id = "coin_gold" then
    some { id := "coin_gold", equipmentSlot := 0 }
  else
    none

/-- `components.InventorySlot`. -/
structure InvSlot where
  itemID : String := ""
  quantity : ℤ := 0
  deriving DecidableEq, Repr

/-- First loop of `items.AddItem`: stack onto the first slot already
holding the item, returning the updated slots, or `none` if no slot
holds it. -/
def addStack : List InvSlot → String → ℤ → Option (List InvSlot)
  | [], _, _ => none
  | s :: rest, itemID, q =>
    if s.itemID = itemID then
      some ({ itemID := itemID, quantity := s.quantity + q } :: rest)
    else
      (addStack rest itemID q).map (s :: ·)

/-- Second loop of `items.AddItem`: fill the first empty slot
(`ItemID == "" || Quantity == 0`), or `none` if the inventory is full. -/
def addEmpty : List InvSlot → String → ℤ → Option (List InvSlot)
  | [], _, _ => none
  | s :: rest, itemID, q =>
    if s.itemID = "" ∨ s.quantity = 0 then
      some ({ itemID := itemID, quantity := q } :: rest)
    else
      (addEmpty rest itemID q).map (s :: ·)

/-- `items.AddItem`: unknown item ids fail up front; else stack onto
the first slot already holding the item, else fill the first empty
slot, else fail.  `none` models the Go error return, in which case the
inventory is untouched. -/
def addItem (slots : List InvSlot) (itemID : String) (quantity : ℤ) :
    Option (List InvSlot) :=
  if (itemsGet itemID).isNone then none
  else
    match addStack slots itemID quantity with
    | some updated => some updated
    | none => addEmpty slots itemID quantity

/-! ## Equipment (`GameServer.equipItemInternal`) -/

/-- `components.EquipmentComponent`: nine slots each holding an item
id ("" = empty), modelled as the list of the nine ids. -/
structure EquipmentComponent where
  slots : List String
  deriving DecidableEq, Repr

/-- `GameServer.equipItemInternal` given the entity's fetched
Equipment and Inventory components (both present, else the source
returns before touching anything): validate the inventory slot, the
item and the target slot; then take one unit from the source slot,
swap the previously equipped item in, and return it to the inventory —
on `AddItem` failure revert the equipment slot and re-add the taken
unit.  Returns the written-back components and whether the equip
succeeded. -/
def equipItemInternal (equip : EquipmentComponent) (inv : List InvSlot)
    (invSlot equipSlot : ℤ) : EquipmentComponent × List InvSlot × Bool :=
  if invSlot < 0 ∨ invSlot ≥ (inv.length : ℤ) then (equip, inv, false)
  else
    let itemID := (inv.getD invSlot.toNat {}).itemID
    if itemID = "" then (equip, inv, false)
    else
      match itemsGet itemID with
      | none => (equip, inv, false)
      | some def_ =>
        if def_.equipmentSlot = -1 then (equip, inv, false)
        else if def_.equipmentSlot ≠ equipSlot then (equip, inv, false)
        else
          -- take one unit from the source slot
          let q1 := (inv.getD invSlot.toNat {}).quantity - 1
          let inv1 :=
            if q1 ≤ 0 then inv.set invSlot.toNat {}
            else inv.set invSlot.toNat { itemID := itemID, quantity := q1 }
          let oldItem := equip.slots.getD equipSlot.toNat ""
          let equip1 : EquipmentComponent := ⟨equip.slots.set equipSlot.toNat itemID⟩
          if oldItem = "" then (equip1, inv1, true)
          else
            if (inv1.getD invSlot.toNat {}).itemID = "" then
              (equip1, inv1.set invSlot.toNat { itemID := oldItem, quantity := 1 }, true)
            else
              match addItem inv1 oldItem 1 with
              | some inv2 => (equip1, inv2, true)
              | none =>
                  -- revert: restore the equipment slot and re-add the taken unit
                  let equip2 : EquipmentComponent := ⟨equip1.slots.set equipSlot.toNat oldItem⟩
                  let inv2 := (addItem inv1 itemID 1).getD inv1
                  (equip2, inv2, false)

/-! ## Combat resolver (`GameServer.HandleAttack`, the server package) -/

/-- The per-entity environment of `HandleAttack`: whether the entity
is in the players table (and the attack flag of the player's recorded
previous input), the weapon stats resolved from the Weapon equipment
slot through the item registry, whether the entity has a Transform,
and the wall-clock time `now` of this call. -/
structure AttackEnv where
  isPlayer : Bool
  prevAttack : Bool := false
  weapon : Option WeaponStats := none
  hasTransform : Bool := true
  now : ℚ

/-- `GameServer.HandleAttack`, attack-initiation part: returns whether
an attack fired this call and the updated `LastAttackTime` (the
`AttackComponent` is created on demand with `LastAttackTime = 0`, so a
single rational models it).  Players are edge-triggered against the
previous tick's recorded input; entities not in the players table are
throttled only by the wall-clock cooldown. -/
def handleAttack (env : AttackEnv) (input : InputComponent) (lastAttackTime : ℚ) :
    Bool × ℚ :=
  if !input.attack then (false, lastAttackTime)
  else if env.isPlayer ∧ env.prevAttack then (false, lastAttackTime)
  else if input.activeSpell ≠ "" then (false, lastAttackTime)
  else
    match env.weapon with
    | none => (false, lastAttackTime)
    | some w =>
      if env.now - lastAttackTime < w.cooldown then (false, lastAttackTime)
      else if !env.hasTransform then (false, lastAttackTime)
      else (true, env.now)

/-- The attack-phase slice of `GameServer.Update` iterated over `n`
ticks for one entity whose attack flag is held `true` throughout (the
input record is unchanged between ticks): each tick calls
`HandleAttack` at wall-clock time `now0 + i·dt`, and afterwards the
server copies the current input into the player's `PrevInput`.
Returns, oldest first, whether each tick initiated an attack. -/
def attackTicks (isPlayer : Bool) (weapon : Option WeaponStats) (input : InputComponent)
    (dt : ℚ) : ℕ → (now : ℚ) → (prevAttack : Bool) → (lastAttackTime : ℚ) → List Bool
  | 0, _, _, _ => []
  | n + 1, now, prevAttack, lastAttackTime =>
    let r := handleAttack { isPlayer := isPlayer, prevAttack := prevAttack,
                            weapon := weapon, hasTransform := true, now := now }
                          input lastAttackTime
    r.1 :: attackTicks isPlayer weapon input dt n (now + dt) input.attack r.2

/-- Specification-side definition of the phrase "attacks fire exactly
at the weapon-cooldown cadence": walking the tick times in order, an
attack fires exactly when at least `cooldown` wall-clock time has
elapsed since the previous fire (initially since `lastAttackTime`). -/
def cadenceFires (cooldown : ℚ) : List ℚ → ℚ → List Bool
  | [], _ => []
  | time :: rest, lastFire =>
    if time - lastFire ≥ cooldown then
      true :: cadenceFires cooldown rest time
    else
      false :: cadenceFires cooldown rest lastFire

/-- The tick times `now0, now0 + dt, …` of `n` consecutive ticks. -/
def tickTimes (now0 dt : ℚ) : ℕ → List ℚ
  | 0 => []
  | n + 1 => now0 :: tickTimes (now0 + dt) dt n

/-! ## Projectile and respawn resolver (`GameServer.UpdateProjectile`,
`GameServer.UpdateRespawn`) -/

/-- `components.StatsComponent`. -/
structure StatsComponent where
  maxHealth : ℚ
  currentHealth : ℚ
  damage : ℚ := 0
  deriving DecidableEq, Repr

/-- `components.SpriteComponent` (color as an RGBA quadruple). -/
structure SpriteComponent where
  width : ℚ
  height : ℚ
  color : ℕ × ℕ × ℕ × ℕ := (0, 0, 0, 0)
  deriving DecidableEq, Repr

/-- `components.PhysicsComponent`. -/
structure PhysicsComponent where
  velX : ℚ := 0
  velY : ℚ := 0
  accX : ℚ := 0
  accY : ℚ := 0
  speed : ℚ := 0
  deriving DecidableEq, Repr

/-- `components.RespawnComponent`. -/
structure RespawnComponent where
  spawnX : ℚ
  spawnY : ℚ
  respawnTimer : ℚ := 0
  isDead : Bool := false
  deriving DecidableEq, Repr

/-- `components.ProjectileComponent`. -/
structure ProjectileComponent where
  ownerID : ℕ
  damage : ℚ
  lifetime : ℚ
  deriving DecidableEq, Repr

/-- The full component record of one entity, as stored by the world
(`none` = the component table has no entry for the entity). -/
structure EntityState where
  id : ℕ
  transform : Option TransformComponent := none
  physics : Option PhysicsComponent := none
  sprite : Option SpriteComponent := none
  stats : Option StatsComponent := none
  input : Option InputComponent := none
  ai : Option AIComponent := none
  respawn : Option RespawnComponent := none
  deriving DecidableEq, Repr

/-- The target filter of the `UpdateProjectile` entity scan: the
entity holds Stats (it came from `Query[StatsComponent]`), is not the
projectile's owner, holds Transform and Sprite, and its sprite box
overlaps the projectile's 10×10 box. -/
def hitPred (ownerID : ℕ) (px py : ℚ) (e : EntityState) : Bool :=
  e.stats.isSome && decide (e.id ≠ ownerID) && e.transform.isSome && e.sprite.isSome &&
  rectOverlap px py 10 10
    ((e.transform.map (·.x)).getD 0) ((e.transform.map (·.y)).getD 0)
    ((e.sprite.map (·.width)).getD 0) ((e.sprite.map (·.height)).getD 0)

/-- The hit block of `UpdateProjectile` (lines 861–897): subtract the
damage clamped at zero; then either the death transition (only when
the target holds a Respawn component: strip
Sprite/Physics/AI/Input/Stats/Transform and arm the timer at 30s), or
reactive aggro (only when the surviving target holds an AI with no
current target).  Returns the updated entity and whether the death
transition and the aggro effect fired. -/
def applyHit (ownerID : ℕ) (damage : ℚ) (e : EntityState) :
    EntityState × Bool × Bool :=
  match e.stats with
  | none => (e, false, false)
  | some st =>
    let hp := st.currentHealth - damage
    let hp := if hp < 0 then 0 else hp
    let e1 := { e with stats := some { st with currentHealth := hp } }
    if hp ≤ 0 then
      match e.respawn with
      | some r =>
          ({ e1 with respawn := some { r with isDead := true, respawnTimer := 30 },
                     sprite := none, physics := none, ai := none,
                     input := none, stats := none, transform := none },
           true, false)
      | none => (e1, false, false)
    else
      match e.ai with
      | some ai =>
          if ai.targetID = 0 then
            ({ e1 with ai := some { ai with targetID := ownerID, state := "chase" } },
             false, true)
          else (e1, false, false)
      | none => (e1, false, false)

/-- The entity scan of `UpdateProjectile`: walk the Stats-holders in
order, apply the hit block to the first entity passing `hitPred`, and
stop (the projectile is destroyed and the remaining entities are never
examined).  Returns the updated entity list and whether a hit
occurred. -/
def projectileScan (ownerID : ℕ) (damage px py : ℚ) :
    List EntityState → List EntityState × Bool
  | [] => ([], false)
  | e :: rest =>
    if hitPred ownerID px py e then
      ((applyHit ownerID damage e).1 :: rest, true)
    else
      let r := projectileScan ownerID damage px py rest
      (e :: r.1, r.2)

/-- `GameServer.UpdateProjectile` for one projectile entity: advance
by velocity, decrement lifetime (destroy on expiry), destroy on a
blocking center tile (`tree` tile kind or any object), else run the
entity scan; the projectile is destroyed exactly when it expired, hit
terrain, or hit an entity.  Returns the projectile's updated
transform/lifetime (`none` when the entity was removed), whether it
was destroyed, and the updated targets. -/
def updateProjectile (maps : ℤ → Option GameMap) (pt : TransformComponent)
    (proj : ProjectileComponent) (phys : Option PhysicsComponent)
    (targets : List EntityState) :
    Option (TransformComponent × ℚ) × Bool × List EntityState :=
  let t1 :=
    match phys with
    | some ph => { pt with x := pt.x + ph.velX, y := pt.y + ph.velY }
    | none => pt
  let life := proj.lifetime - 1
  if life ≤ 0 then (none, true, targets)
  else
    let cx := t1.x + 4
    let cy := t1.y + 4
    let tx := goTrunc (cx / 32)
    let ty := goTrunc (cy / 32)
    let terrainHit :=
      match maps t1.z with
      | some m =>
          decide (0 ≤ tx) && decide (tx < m.width) && decide (0 ≤ ty) &&
          decide (ty < m.height) &&
          (decide (m.tiles ty tx = TileType.tree) || decide (m.objects ty tx > 0))
      | none => false
    if terrainHit then (none, true, targets)
    else
      let r := projectileScan proj.ownerID proj.damage t1.x t1.y targets
      if r.2 then (none, true, r.1) else (some (t1, life), false, r.1)

/-- `GameServer.UpdateRespawn` for one entity: dead entities count
down; when the timer crosses zero the entity regains Transform at the
spawn coordinates, Physics, Sprite, Stats at full health, Input, and a
fresh wander AI leashed to the spawn. -/
def updateRespawnEntity (dt : ℚ) (e : EntityState) : EntityState :=
  match e.respawn with
  | none => e
  | some r =>
    if !r.isDead then e
    else
      let timer := r.respawnTimer - dt
      if timer ≤ 0 then
        { e with
          respawn := some { r with isDead := false, respawnTimer := timer },
          transform := some { x := r.spawnX, y := r.spawnY, z := 0 },
          physics := some { speed := 6 },
          sprite := some { width := 32, height := 32, color := (255, 255, 0, 255) },
          stats := some { maxHealth := 50, currentHealth := 50 },
          input := some {},
          ai := some { aiType := "wander", state := "wander", stateTimer := 1,
                       isAggressive := true, faction := 1, spawnX := r.spawnX,
                       spawnY := r.spawnY, leashRange := 600 } }
      else
        { e with respawn := some { r with respawnTimer := timer } }

/-! ## Outbound snapshot (`pkg/server/systems/network.go`) -/

/-- `protocol.EntitySnapshot`. -/
structure EntitySnapshot where
  id : ℕ
  transform : Option TransformComponent
  physics : Option PhysicsComponent
  sprite : Option SpriteComponent
  stats : Option StatsComponent
  deriving DecidableEq, Repr

/-- `NetworkSystem.PrepareStateUpdate`: iterate
`Query[TransformComponent]` and keep the entities that also hold a
Sprite, copying their id and optional
Transform/Physics/Sprite/Stats values. -/
def prepareStateUpdate (world : List EntityState) : List EntitySnapshot :=
  world.filterMap fun e =>
    match e.transform with
    | none => none
    | some _ =>
      match e.sprite with
      | none => none
      | some _ =>
          some { id := e.id, transform := e.transform, physics := e.physics,
                 sprite := e.sprite, stats := e.stats }

/-! ## Concrete instances used by witnesses and counterexamples -/

/-- A 3×3 map, all grass except a water wall in the rightmost column. -/
def wallMap : GameMap :=
  { width := 3, height := 3,
    tiles := fun _ tx => if tx = 2 then TileType.water else TileType.grass,
    objects := fun _ _ => 0 }

/-- A world with `wallMap` loaded at level 0 and nothing elsewhere. -/
def wallMaps : ℤ → Option GameMap := fun z => if z = 0 then some wallMap else none

/-- Down-right diagonal movement intent. -/
def diagInput : InputComponent := { right := true, down := true }

/-- A position one tile into `wallMap`. -/
def startT : TransformComponent := { x := 32, y := 32, z := 0 }

/-- An NPC engaged on target 7, leashed at 600 from the origin. -/
def leashAI : AIComponent :=
  { state := "chase", targetID := 7, spawnX := 0, spawnY := 0, leashRange := 600 }

/-- 601px from spawn: just beyond the 600 leash radius. -/
def leashT : TransformComponent := { x := 601, y := 0, z := 0 }

/-- Target 7 exists at the origin of level 0. -/
def leashEnv : AIEnv := { targetTransform := some { x := 0, y := 0, z := 0 } }

/-- An environment whose target entity has no Transform (despawned). -/
def goneTargetEnv : AIEnv := { targetTransform := none }

/-- First entity of the C2 scenario: `leashAI` beyond its leash. -/
def rowA : AIEntityRow :=
  { id := 1, ai := some leashAI, input := some {}, transform := some leashT,
    env := leashEnv }

/-- Input of the second entity, with a stale `up` flag from last tick. -/
def rowBInput : InputComponent := { up := true }

/-- AI of the second entity: wandering at its spawn, timer expired. -/
def rowBAI : AIComponent := { state := "idle", spawnX := 0, spawnY := 0, leashRange := 600 }

/-- Second entity of the C2 scenario, at its spawn on level 0. -/
def rowB : AIEntityRow :=
  { id := 2, ai := some rowBAI, input := some rowBInput,
    transform := some { x := 0, y := 0, z := 0 }, env := {} }

/-- A targeted NPC for the attack-range scenarios. -/
def meleeAI : AIComponent :=
  { state := "wander", targetID := 7, spawnX := 0, spawnY := 0, leashRange := 600 }

/-- The attacker
stands at the origin of level 0. -/
def meleeT : TransformComponent := { x := 0, y := 0, z := 0 }

/-- Sword equipped (`Range = 60`, classified melee since `60 > 60` is
false); target 50px away center-to-center (offset 30,40). -/
def swordEnv : AIEnv :=
  { targetTransform := some { x := 30, y := 40, z := 0 }, weaponRange := some 60 }

/-- Bow equipped (`Range = 400`, ranged), target 300px away with clear
line of sight. -/
def bowEnv : AIEnv :=
  { targetTransform := some { x := 300, y := 0, z := 0 }, weaponRange := some 400,
    hasLOS := true }

/-- The starter sword's weapon stats (`weapons.go`). -/
def swordStats : WeaponStats :=
  { damage := 20, range := 60, cooldown := 0.8, attackType := .melee }

/-- An input record whose attack flag is held down. -/
def heldInput : InputComponent := { attack := true }

/-- An NPC with 5 health, a Respawn component armed for spawn
(100, 200), and full component complement. -/
def doomedNPC : EntityState :=
  { id := 3, transform := some { x := 10, y := 20, z := 0 }, physics := some {},
    sprite := some { width := 32, height := 32 }, stats := some { maxHealth := 50, currentHealth := 5 },
    input := some {}, ai := some { state := "wander" },
    respawn := some { spawnX := 100, spawnY := 200 } }

/-- A player-like entity: Stats but no Respawn component. -/
def playerVictim : EntityState :=
  { id := 4, transform := some { x := 1, y := 2, z := 0 }, physics := some {},
    sprite := some { width := 32, height := 32 },
    stats := some { maxHealth := 100, currentHealth := 5 }, input := some {} }

/-- A Stats/Transform/Sprite-only entity at the origin with 8 health:
no AI and no Respawn component. -/
def bareVictim : EntityState :=
  { id := 5, transform := some { x := 0, y := 0, z := 0 },
    sprite := some { width := 32, height := 32 },
    stats := some { maxHealth := 30, currentHealth := 8 } }

/-- Two stacks of the same item: the source slot of the equip request
is the *second* stack. -/
def dupInv : List InvSlot :=
  [{ itemID := "bow_starter", quantity := 1 }, { itemID := "bow_starter", quantity := 2 }]

/-- A sword already equipped in the weapon slot (index 5). -/
def swordEquip : EquipmentComponent :=
  { slots := ["", "", "", "", "", "sword_starter", "", "", ""] }

/-- A full inventory whose only bow stack is the source slot itself. -/
def fullInv : List InvSlot :=
  [{ itemID := "bow_starter", quantity := 2 }, { itemID := "coin_gold", quantity := 1 }]

/-- An entity holding a Sprite but no Transform. -/
def spriteOnly : EntityState := { id := 9, sprite := some { width := 32, height := 32 } }

/-- An entity holding Transform and Sprite but neither Physics nor Stats. -/
def fullEntity : EntityState :=
  { id := 11, transform := some { x := 3, y := 4, z := 0 },
    sprite := some { width := 32, height := 32 } }

/-- Specification-side predicate for C10: the 24×24 collision box at
`(x, y)` lies within the map grid (strictly, in the sense enforced by
the probe loop: every tile it can touch is in bounds). -/
def boxInGrid (m : GameMap) (x y : ℚ) : Prop :=
  0 ≤ x ∧ x + 24 < (m.width : ℚ) * tileSize ∧
  0 ≤ y ∧ y + 24 < (m.height : ℚ) * tileSize

/-- The snapshot entry `PrepareStateUpdate` builds for an entity. -/
def snapshotOf (e : EntityState) : EntitySnapshot :=
  { id := e.id, transform := e.transform, physics := e.physics,
    sprite := e.sprite, stats := e.stats }

/-! ## Helper lemmas -/

theorem mem_intRange {a b v : ℤ} (h1 : a ≤ v) (h2 : v ≤ b) : v ∈ intRange a b := by
  unfold intRange
  simp only [List.mem_map, List.mem_range]
  exact ⟨(v - a).toNat, by omega, by omega⟩

theorem cellCollides_oob {m : GameMap} {tx ty : ℤ} {x y w h : ℚ}
    (hob : tx < 0 ∨ m.width ≤ tx ∨ ty < 0 ∨ m.height ≤ ty) :
    cellCollides m tx ty x y w h = true := by
  unfold cellCollides
  rw [if_pos hob]

theorem collidesAt_none {maps : ℤ → Option GameMap} {z : ℤ} (hm : maps z = none)
    (x y w h : ℚ) : collidesAt maps z x y w h = true := by
  unfold collidesAt
  rw [hm]

theorem collidesAt_oob {maps : ℤ → Option GameMap} {z : ℤ} {m : GameMap}
    {x y w h : ℚ} {tx ty : ℤ} (hm : maps z = some m)
    (htx : tx ∈ intRange (goFloor (x / tileSize)) (goFloor ((x + w) / tileSize)))
    (hty : ty ∈ intRange (goFloor (y / tileSize)) (goFloor ((y + h) / tileSize)))
    (hob : tx < 0 ∨ m.width ≤ tx ∨ ty < 0 ∨ m.height ≤ ty) :
    collidesAt maps z x y w h = true := by
  unfold collidesAt
  rw [hm]
  refine List.any_eq_true.mpr ⟨ty, hty, ?_⟩
  exact List.any_eq_true.mpr ⟨tx, htx, cellCollides_oob hob⟩

theorem collidesAt_false_bounds {maps : ℤ → Option GameMap} {z : ℤ} {m : GameMap}
    {x y w h : ℚ} (hm : maps z = some m) (hw : 0 ≤ w) (hh : 0 ≤ h)
    (hc : collidesAt maps z x y w h = false) :
    0 ≤ x ∧ x + w < (m.width : ℚ) * tileSize ∧
    0 ≤ y ∧ y + h < (m.height : ℚ) * tileSize := by
  have h32 : (0 : ℚ) < 32 := by norm_num
  have hts : tileSize = 32 := rfl
  have hxm : goFloor (x / tileSize) ≤ goFloor ((x + w) / tileSize) := by
    unfold goFloor
    apply Int.floor_le_floor
    rw [hts]
    apply div_le_div_of_nonneg_right ?_ (by norm_num : (0 : ℚ) ≤ 32)
    linarith
  have hym : goFloor (y / tileSize) ≤ goFloor ((y + h) / tileSize) := by
    unfold goFloor
    apply Int.floor_le_floor
    rw [hts]
    apply div_le_div_of_nonneg_right ?_ (by norm_num : (0 : ℚ) ≤ 32)
    linarith
  have hnotany : ∀ ty ∈ intRange (goFloor (y / tileSize)) (goFloor ((y + h) / tileSize)),
      ∀ tx ∈ intRange (goFloor (x / tileSize)) (goFloor ((x + w) / tileSize)),
      cellCollides m tx ty x y w h = false := by
    intro ty hty tx htx
    by_contra hne
    have htrue : cellCollides m tx ty x y w h = true := by
      cases hcc : cellCollides m tx ty x y w h
      · exact absurd hcc hne
      · rfl
    have : collidesAt maps z x y w h = true := by
      unfold collidesAt
      rw [hm]
      refine List.any_eq_true.mpr ⟨ty, hty, List.any_eq_true.mpr ⟨tx, htx, htrue⟩⟩
    rw [this] at hc
    exact Bool.noConfusion hc
  have hcell1 := hnotany _ (mem_intRange le_rfl hym) _ (mem_intRange le_rfl hxm)
  have hcell2 := hnotany _ (mem_intRange hym le_rfl) _ (mem_intRange hxm le_rfl)
  have hin1 : ¬(goFloor (x / tileSize) < 0 ∨ m.width ≤ goFloor (x / tileSize) ∨
      goFloor (y / tileSize) < 0 ∨ m.height ≤ goFloor (y / tileSize)) := by
    intro hob
    rw [cellCollides_oob hob] at hcell1
    exact Bool.noConfusion hcell1
  have hin2 : ¬(goFloor ((x + w) / tileSize) < 0 ∨ m.width ≤ goFloor ((x + w) / tileSize) ∨
      goFloor ((y + h) / tileSize) < 0 ∨ m.height ≤ goFloor ((y + h) / tileSize)) := by
    intro hob
    rw [cellCollides_oob hob] at hcell2
    exact Bool.noConfusion hcell2
  push_neg at hin1 hin2
  obtain ⟨ha1, -, ha3, -⟩ := hin1
  obtain ⟨-, hb2, -, hb4⟩ := hin2
  have hx0 : (0 : ℚ) ≤ x / 32 := by
    calc (0 : ℚ) = ((0 : ℤ) : ℚ) := by norm_num
    _ ≤ ((goFloor (x / tileSize) : ℤ) : ℚ) := by exact_mod_cast ha1
    _ ≤ x / tileSize := Int.floor_le _
    _ = x / 32 := by rw [hts]
  have hy0 : (0 : ℚ) ≤ y / 32 := by
    calc (0 : ℚ) = ((0 : ℤ) : ℚ) := by norm_num
    _ ≤ ((goFloor (y / tileSize) : ℤ) : ℚ) := by exact_mod_cast ha3
    _ ≤ y / tileSize := Int.floor_le _
    _ = y / 32 := by rw [hts]
  have hxw : (x + w) / 32 < (m.width : ℚ) := by
    have := Int.floor_lt.mp (show Int.floor ((x + w) / tileSize) < m.width from hb2)
    rw [hts] at this
    exact this
  have hyh : (y + h) / 32 < (m.height : ℚ) := by
    have := Int.floor_lt.mp (show Int.floor ((y + h) / tileSize) < m.height from hb4)
    rw [hts] at this
    exact this
  rw [hts]
  refine ⟨?_, ?_, ?_, ?_⟩
  · have := (le_div_iff₀ h32).mp hx0
    linarith
  · have := (div_lt_iff₀ h32).mp hxw
    linarith
  · have := (le_div_iff₀ h32).mp hy0
    linarith
  · have := (div_lt_iff₀ h32).mp hyh
    linarith

theorem updateEntityMovement_x (maps : ℤ → Option GameMap) (others : List OtherEntity)
    (selfId : ℕ) (input : InputComponent) (t : TransformComponent) (speed : ℚ) :
    (updateEntityMovement maps others selfId input t speed).x =
      if moveBlocked maps others selfId t.z (t.x + (moveDelta input speed).1) t.y
      then t.x else t.x + (moveDelta input speed).1 := by
  unfold updateEntityMovement moveBlocked
  dsimp only
  split_ifs with h1 h2 <;> simp_all

theorem updateEntityMovement_y (maps : ℤ → Option GameMap) (others : List OtherEntity)
    (selfId : ℕ) (input : InputComponent) (t : TransformComponent) (speed : ℚ) :
    (updateEntityMovement maps others selfId input t speed).y =
      if moveBlocked maps others selfId t.z
           (updateEntityMovement maps others selfId input t speed).x
           (t.y + (moveDelta input speed).2)
      then t.y else t.y + (moveDelta input speed).2 := by
  unfold updateEntityMovement moveBlocked
  dsimp only
  split_ifs with h1 h2 h3 <;> simp_all

theorem updateEntityMovement_z (maps : ℤ → Option GameMap) (others : List OtherEntity)
    (selfId : ℕ) (input : InputComponent) (t : TransformComponent) (speed : ℚ) :
    (updateEntityMovement maps others selfId input t speed).z = t.z := by
  unfold updateEntityMovement
  dsimp only

theorem goFloor_eq_of (q : ℚ) (n : ℤ) (h1 : (n : ℚ) ≤ q) (h2 : q < n + 1) : goFloor q = n := by
  unfold goFloor
  exact Int.floor_eq_iff.mpr ⟨h1, by exact_mod_cast h2⟩

/-- **C7** — Axis-separated movement: for an entity with
Input/Transform/Physics the X displacement is attempted first and
committed exactly when the candidate collision box overlaps no solid
tile, solid object, or other non-projectile entity box on the same
level (`moveBlocked`); the Y displacement is then attempted from the
(possibly already-moved) X position under the same test, so an entity
blocked on one axis still slides along the other, and an entity
blocked on both axes has zero net displacement that tick. -/
theorem movement_axis_separated (maps : ℤ → Option GameMap) (others : List OtherEntity)
    (selfId : ℕ) (input : InputComponent) (t : TransformComponent) (speed : ℚ) :
    ((updateEntityMovement maps others selfId input t speed).x =
      if moveBlocked maps others selfId t.z (t.x + (moveDelta input speed).1) t.y
      then t.x else t.x + (moveDelta input speed).1) ∧
    ((updateEntityMovement maps others selfId input t speed).y =
      if moveBlocked maps others selfId t.z
           (updateEntityMovement maps others selfId input t speed).x
           (t.y + (moveDelta input speed).2)
      then t.y else t.y + (moveDelta input speed).2) ∧
    ((updateEntityMovement maps others selfId input t speed).z = t.z) ∧
    (moveBlocked maps others selfId t.z (t.x + (moveDelta input speed).1) t.y = true →
     moveBlocked maps others selfId t.z t.x (t.y + (moveDelta input speed).2) = true →
     updateEntityMovement maps others selfId input t speed = t) := by
  refine ⟨updateEntityMovement_x maps others selfId input t speed,
          updateEntityMovement_y maps others selfId input t speed,
          updateEntityMovement_z maps others selfId input t speed, ?_⟩
  intro hx hy
  have h1 := updateEntityMovement_x maps others selfId input t speed
  have h2 := updateEntityMovement_y maps others selfId input t speed
  have h3 := updateEntityMovement_z maps others selfId input t speed
  rw [hx] at h1
  simp only [if_pos] at h1
  rw [h1, hy] at h2
  simp only [if_pos] at h2
  calc updateEntityMovement maps others selfId input t speed
      = ⟨(updateEntityMovement maps others selfId input t speed).x,
         (updateEntityMovement maps others selfId input t speed).y,
         (updateEntityMovement maps others selfId input t speed).z⟩ := rfl
    _ = ⟨t.x, t.y, t.z⟩ := by rw [h1, h2, h3]
    _ = t := rfl

/-- Witness for `movement_axis_separated`: on `wallMap`, moving
diagonally down-right at (32, 32) into the water column is blocked on
X and commits Y — the corner slide of the claim. -/
theorem movement_axis_separated_witness :
    (updateEntityMovement wallMaps [] 1 diagInput startT 6).x = 32 ∧
    (updateEntityMovement wallMaps [] 1 diagInput startT 6).y = 32 + 21213 / 5000 := by
  have hd : moveDelta diagInput 6 = (21213 / 5000, 21213 / 5000) := by
    norm_num [moveDelta, diagInput]
  have hcell : cellCollides wallMap 2 1 (32 + 21213 / 5000 + (tileSize - 24) / 2)
      (32 + (tileSize - 24) / 2) 24 24 = true := by
    simp [cellCollides, wallMap, isTileSolid, TileType.isSolid]
  have hAt : collidesAt wallMaps 0 (32 + 21213 / 5000 + (tileSize - 24) / 2)
      (32 + (tileSize - 24) / 2) 24 24 = true := by
    unfold collidesAt
    rw [show wallMaps 0 = some wallMap from rfl]
    refine List.any_eq_true.mpr ⟨1, mem_intRange ?_ ?_,
      List.any_eq_true.mpr ⟨2, mem_intRange ?_ ?_, hcell⟩⟩
    · rw [goFloor_eq_of _ 1 (by norm_num [tileSize]) (by norm_num [tileSize])]
    · rw [goFloor_eq_of _ 1 (by norm_num [tileSize]) (by norm_num [tileSize])]
    · rw [goFloor_eq_of _ 1 (by norm_num [tileSize]) (by norm_num [tileSize])]
      omega
    · rw [goFloor_eq_of _ 2 (by norm_num [tileSize]) (by norm_num [tileSize])]
  have hblocked : moveBlocked wallMaps [] 1 0 (32 + 21213 / 5000) 32 = true := by
    unfold moveBlocked
    simp [hAt]
  have hfree : moveBlocked wallMaps [] 1 0 32 (32 + 21213 / 5000) = false := by
    unfold moveBlocked collidesWithEntities
    have hAt2 : collidesAt wallMaps 0 (32 + (tileSize - 24) / 2)
        (32 + 21213 / 5000 + (tileSize - 24) / 2) 24 24 = false := by
      unfold collidesAt
      rw [show wallMaps 0 = some wallMap from rfl]
      rw [goFloor_eq_of ((32 + (tileSize - 24) / 2) / tileSize) 1
            (by norm_num [tileSize]) (by norm_num [tileSize]),
          goFloor_eq_of ((32 + (tileSize - 24) / 2 + 24) / tileSize) 1
            (by norm_num [tileSize]) (by norm_num [tileSize]),
          goFloor_eq_of ((32 + 21213 / 5000 + (tileSize - 24) / 2) / tileSize) 1
            (by norm_num [tileSize]) (by norm_num [tileSize]),
          goFloor_eq_of ((32 + 21213 / 5000 + (tileSize - 24) / 2 + 24) / tileSize) 2
            (by norm_num [tileSize]) (by norm_num [tileSize])]
      simp [intRange, List.range_succ, cellCollides, wallMap, isTileSolid, TileType.isSolid]
    simp [hAt2]
  have h := movement_axis_separated wallMaps [] 1 diagInput startT 6
  obtain ⟨h1, h2, -, -⟩ := h
  simp only [startT, hd] at h1 h2
  rw [hblocked] at h1
  simp only [if_pos] at h1
  rw [h1, hfree] at h2
  simp only [if_neg, Bool.false_eq_true, not_false_iff, ite_false] at h2
  refine ⟨?_, ?_⟩ <;> simp only [startT] <;> assumption

/-- **C10** — Implicit map-boundary containment: `collidesAt` reports
a collision whenever the vertical level has no loaded map, and
whenever the probe box overlaps a tile coordinate outside the map's
width/height bounds; consequently an entity whose collision box lies
within the map grid before a movement tick still lies within the grid
after it. -/
theorem collidesAt_bounds_and_containment :
    (∀ (maps : ℤ → Option GameMap) (z : ℤ) (x y w h : ℚ),
      maps z = none → collidesAt maps z x y w h = true) ∧
    (∀ (maps : ℤ → Option GameMap) (z : ℤ) (m : GameMap) (x y w h : ℚ) (tx ty : ℤ),
      maps z = some m →
      tx ∈ intRange (goFloor (x / tileSize)) (goFloor ((x + w) / tileSize)) →
      ty ∈ intRange (goFloor (y / tileSize)) (goFloor ((y + h) / tileSize)) →
      (tx < 0 ∨ m.width ≤ tx ∨ ty < 0 ∨ m.height ≤ ty) →
      collidesAt maps z x y w h = true) ∧
    (∀ (maps : ℤ → Option GameMap) (others : List OtherEntity) (selfId : ℕ)
      (input : InputComponent) (t : TransformComponent) (speed : ℚ) (m : GameMap),
      maps t.z = some m →
      boxInGrid m (t.x + (tileSize - 24) / 2) (t.y + (tileSize - 24) / 2) →
      boxInGrid m
        ((updateEntityMovement maps others selfId input t speed).x + (tileSize - 24) / 2)
        ((updateEntityMovement maps others selfId input t speed).y + (tileSize - 24) / 2)) := by
  refine ⟨fun maps z x y w h hm => collidesAt_none hm x y w h,
          fun maps z m x y w h tx ty hm htx hty hob => collidesAt_oob hm htx hty hob, ?_⟩
  intro maps others selfId input t speed m hm hin
  obtain ⟨hin1, hin2, hin3, hin4⟩ := hin
  have hx := updateEntityMovement_x maps others selfId input t speed
  have hy := updateEntityMovement_y maps others selfId input t speed
  have hxbounds : 0 ≤ (updateEntityMovement maps others selfId input t speed).x + (tileSize - 24) / 2 ∧
      (updateEntityMovement maps others selfId input t speed).x + (tileSize - 24) / 2 + 24 <
        (m.width : ℚ) * tileSize := by
    by_cases hbx : moveBlocked maps others selfId t.z (t.x + (moveDelta input speed).1) t.y = true
    · rw [hx, if_pos hbx]
      exact ⟨hin1, hin2⟩
    · have hbx' : moveBlocked maps others selfId t.z (t.x + (moveDelta input speed).1) t.y = false :=
        Bool.not_eq_true _ ▸ Bool.of_not_eq_true hbx
      have hca : collidesAt maps t.z (t.x + (moveDelta input speed).1 + (tileSize - 24) / 2)
          (t.y + (tileSize - 24) / 2) 24 24 = false := by
        have := hbx'
        unfold moveBlocked at this
        exact (Bool.or_eq_false_iff.mp this).1
      have hb := collidesAt_false_bounds hm (by norm_num) (by norm_num) hca
      rw [hx, if_neg (by simp [hbx'])]
      exact ⟨hb.1, hb.2.1⟩
  have hybounds : 0 ≤ (updateEntityMovement maps others selfId input t speed).y + (tileSize - 24) / 2 ∧
      (updateEntityMovement maps others selfId input t speed).y + (tileSize - 24) / 2 + 24 <
        (m.height : ℚ) * tileSize := by
    by_cases hby : moveBlocked maps others selfId t.z
        (updateEntityMovement maps others selfId input t speed).x
        (t.y + (moveDelta input speed).2) = true
    · rw [hy, if_pos hby]
      exact ⟨hin3, hin4⟩
    · have hby' : moveBlocked maps others selfId t.z
          (updateEntityMovement maps others selfId input t speed).x
          (t.y + (moveDelta input speed).2) = false :=
        Bool.not_eq_true _ ▸ Bool.of_not_eq_true hby
      have hca : collidesAt maps t.z
          ((updateEntityMovement maps others selfId input t speed).x + (tileSize - 24) / 2)
          (t.y + (moveDelta input speed).2 + (tileSize - 24) / 2) 24 24 = false := by
        have := hby'
        unfold moveBlocked at this
        exact (Bool.or_eq_false_iff.mp this).1
      have hb := collidesAt_false_bounds hm (by norm_num) (by norm_num) hca
      rw [hy, if_neg (by simp [hby'])]
      exact ⟨hb.2.2.1, hb.2.2.2⟩
  exact ⟨hxbounds.1, hxbounds.2, hybounds.1, hybounds.2⟩

/-- Witness for `collidesAt_bounds_and_containment`: an unloaded
level, a probe hanging off the left map edge, and the concrete
diagonal move of the C7 witness staying inside `wallMap`. -/
theorem collidesAt_bounds_and_containment_witness :
    collidesAt wallMaps 5 7 7 24 24 = true ∧
    collidesAt wallMaps 0 (-5) 3 24 24 = true ∧
    boxInGrid wallMap
      ((updateEntityMovement wallMaps [] 1 diagInput startT 6).x + (tileSize - 24) / 2)
      ((updateEntityMovement wallMaps [] 1 diagInput startT 6).y + (tileSize - 24) / 2) := by
  obtain ⟨p1, p2, p3⟩ := collidesAt_bounds_and_containment
  refine ⟨p1 wallMaps 5 7 7 24 24 rfl, ?_, ?_⟩
  · refine p2 wallMaps 0 wallMap (-5) 3 24 24 (-1) 0 rfl ?_ ?_ (by left; norm_num)
    · refine mem_intRange ?_ ?_
      · rw [goFloor_eq_of ((-5 : ℚ) / tileSize) (-1) (by norm_num [tileSize]) (by norm_num [tileSize])]
      · rw [goFloor_eq_of (((-5 : ℚ) + 24) / tileSize) 0 (by norm_num [tileSize]) (by norm_num [tileSize])]
        omega
    · refine mem_intRange ?_ ?_
      · rw [goFloor_eq_of ((3 : ℚ) / tileSize) 0 (by norm_num [tileSize]) (by norm_num [tileSize])]
      · rw [goFloor_eq_of (((3 : ℚ) + 24) / tileSize) 0 (by norm_num [tileSize]) (by norm_num [tileSize])]
  · refine p3 wallMaps [] 1 diagInput startT 6 wallMap rfl ?_
    simp only [startT, boxInGrid, wallMap]
    norm_num [tileSize]

/-- **C1** (amended) — Leash invariant: for an AI-bearing NPC whose
squared distance from its current position to its spawn origin exceeds
its squared leash radius at the start of its AI evaluation, in any
non-`return` state, *provided any held target is valid* (the target
entity still has a Transform on the NPC's level), the tick's AI update
leaves the NPC in state `return` with target id 0 and a cleared path.
(The unamended claim also covers an NPC holding an id whose target
entity is invalid; the code drops such an NPC to `wander` without a
leash check that tick — see `ai_leash_invalid_target_counterexample`.) -/
theorem ai_leash_forces_return (env : AIEnv) (dt : ℚ) (ai : AIComponent)
    (input : InputComponent) (t : TransformComponent)
    (hstate : ai.state ≠ "return")
    (htarget : ai.targetID = 0 ∨ ∃ tt, env.targetTransform = some tt ∧ tt.z = t.z)
    (hleash : (t.x - ai.spawnX) ^ 2 + (t.y - ai.spawnY) ^ 2 > ai.leashRange ^ 2) :
    (aiStep env dt ai input t).1.state = "return" ∧
    (aiStep env dt ai input t).1.targetID = 0 ∧
    (aiStep env dt ai input t).1.path = [] := by
  by_cases h0 : ai.targetID = 0
  · unfold aiStep
    rw [if_neg (by simp [h0])]
    rw [if_neg hstate]
    unfold aiWander
    rw [if_pos hleash]
    exact ⟨rfl, rfl, rfl⟩
  · rcases htarget with h0' | ⟨tt, htt, hz⟩
    · exact absurd h0' h0
    · unfold aiStep
      rw [if_pos h0]
      rw [htt]
      simp only [Option.some.injEq]
      rw [if_neg (by simp [hz])]
      rw [if_pos hleash]
      exact ⟨rfl, rfl, rfl⟩

/-- Witness for `ai_leash_forces_return`: an NPC 601px from spawn with
a valid target and a 600px leash is forced home this tick. -/
theorem ai_leash_forces_return_witness :
    (aiStep leashEnv (33 / 1000) leashAI {} leashT).1.state = "return" ∧
    (aiStep leashEnv (33 / 1000) leashAI {} leashT).1.targetID = 0 ∧
    (aiStep leashEnv (33 / 1000) leashAI {} leashT).1.path = [] :=
  ai_leash_forces_return leashEnv (33 / 1000) leashAI {} leashT
    (by simp [leashAI])
    (Or.inr ⟨{ x := 0, y := 0, z := 0 }, rfl, rfl⟩)
    (by norm_num [leashAI, leashT])

/-- Counterexample to **C1** as stated: an NPC beyond its leash in a
non-`return` state holding target id 7, whose target entity has no
Transform.  The claim requires state `return` after the tick; the code
drops the target and leaves the NPC in `wander` without a leash check. -/
theorem ai_leash_invalid_target_counterexample :
    leashAI.state ≠ "return" ∧ leashAI.targetID ≠ 0 ∧
    (leashT.x - leashAI.spawnX) ^ 2 + (leashT.y - leashAI.spawnY) ^ 2 >
      leashAI.leashRange ^ 2 ∧
    (aiStep goneTargetEnv (33 / 1000) leashAI {} leashT).1.state = "wander" ∧
    (aiStep goneTargetEnv (33 / 1000) leashAI {} leashT).1.state ≠ "return" := by
  refine ⟨by simp [leashAI], by simp [leashAI], by norm_num [leashAI, leashT], ?_, ?_⟩ <;>
    simp [aiStep, goneTargetEnv, leashAI]

/-- **C2** — evidence of the code bug: in a tick where the first
evaluated NPC (`rowA`, beyond its leash with a valid target) triggers
the leash check, `AISystem.Update` executes the source's `return` and
the second AI-bearing entity `rowB` is left exactly as it was — its
stale `up` input flag survives — although evaluating it would have
cleared the flag.  The claim (and §5 of the spec) requires every other
AI-bearing entity to still be evaluated in the same tick. -/
theorem ai_update_leash_aborts_tick :
    (aiSystemUpdate (33 / 1000) [rowA, rowB]).drop 1 = [rowB] ∧
    ((aiSystemUpdate (33 / 1000) [rowA, rowB]).getD 0 rowB).ai =
      some { leashAI with state := "return", targetID := 0, path := [] } ∧
    rowBInput.up = true ∧
    (aiStep rowB.env (33 / 1000) rowBAI rowBInput { x := 0, y := 0, z := 0 }).2.1.up = false := by
  refine ⟨?_, ?_, rfl, ?_⟩ <;>
    (norm_num [aiSystemUpdate, aiStep, aiWander, pickNewState, applyWanderState,
               entityCenter, sqrtLe, rowA, rowB, rowBAI, rowBInput, leashAI, leashEnv,
               leashT] <;> simp)

theorem aiChase_state (env : AIEnv) (dt : ℚ) (ai : AIComponent) (input : InputComponent)
    (t tt : TransformComponent) : (aiChase env dt ai input t tt).1.state = "chase" := by
  unfold aiChase
  split_ifs <;> rfl

/-- **C3** (amended) — for a targeted NPC (valid target, within its
leash) with an equipped weapon of range `R`: the AI enters `attack`
exactly when the center-to-center distance is within `0.8 · R` — the
80% threshold is applied to *every* equipped weapon, melee included —
and, when the weapon is classified ranged (`R > 60`), the multi-ray
line of sight additionally holds.  (The unamended claim exempts melee
weapons from the 80% factor; see
`ai_melee_full_range_counterexample`.) -/
theorem ai_attack_range_threshold (env : AIEnv) (dt : ℚ) (ai : AIComponent)
    (input : InputComponent) (t : TransformComponent) (tt : TransformComponent) (R : ℚ)
    (h0 : ai.targetID ≠ 0)
    (htt : env.targetTransform = some tt)
    (hz : tt.z = t.z)
    (hw : env.weaponRange = some R)
    (hleash : (t.x - ai.spawnX) ^ 2 + (t.y - ai.spawnY) ^ 2 ≤ ai.leashRange ^ 2) :
    (aiStep env dt ai input t).1.state = "attack" ↔
      (sqrtLe (((entityCenter tt env.targetSprite).1 - (entityCenter t env.selfSprite).1) ^ 2 +
               ((entityCenter tt env.targetSprite).2 - (entityCenter t env.selfSprite).2) ^ 2)
              (R * 0.8) = true ∧
       (60 < R → env.hasLOS = true)) := by
  unfold aiStep
  rw [if_pos h0, htt]
  simp only [Option.some.injEq]
  rw [if_neg (by simp [hz])]
  rw [hw]
  rw [if_neg (not_lt.mpr hleash)]
  by_cases hca : (sqrtLe (((entityCenter tt env.targetSprite).1 - (entityCenter t env.selfSprite).1) ^ 2 +
      ((entityCenter tt env.targetSprite).2 - (entityCenter t env.selfSprite).2) ^ 2) (R * 0.8) &&
      (!(decide (R > 60)) || env.hasLOS)) = true
  · rw [if_pos hca]
    have hca' := hca
    simp only [Bool.and_eq_true] at hca'
    obtain ⟨hs, hor⟩ := hca'
    refine iff_of_true rfl ⟨hs, ?_⟩
    intro hR
    cases hl : env.hasLOS
    · rw [hl, decide_eq_true hR] at hor
      simp at hor
    · rfl
  · rw [if_neg hca]
    refine iff_of_false (by simp [aiChase_state]) ?_
    rintro ⟨hs, hlos⟩
    apply hca
    simp only [Bool.and_eq_true]
    refine ⟨hs, ?_⟩
    by_cases hR : 60 < R
    · rw [hlos hR]
      simp
    · rw [decide_eq_false hR]
      simp

/-- Witness for `ai_attack_range_threshold`: a bow-armed NPC (range
400, ranged) with clear LOS and a target 300px away (within the 320px
threshold) enters `attack`. -/
theorem ai_attack_range_threshold_witness :
    (aiStep bowEnv (33 / 1000) meleeAI {} meleeT).1.state = "attack" := by
  have h := ai_attack_range_threshold bowEnv (33 / 1000) meleeAI {} meleeT
      { x := 300, y := 0, z := 0 } 400 (by simp [meleeAI]) rfl rfl rfl
      (by norm_num [meleeAI, meleeT])
  rw [h]
  constructor
  · norm_num [sqrtLe, entityCenter, bowEnv, meleeT]
  · intro _
    rfl

/-- Counterexample to **C3** as stated: a sword (range 60, melee by
the code's `range > 60` test) against a target exactly 50px away
center-to-center.  The claim puts a melee target within the full
(unscaled) weapon range into `attack`; the code scales every equipped
weapon's range by 0.8 (threshold 48) and goes to `chase` instead. -/
theorem ai_melee_full_range_counterexample :
    swordEnv.weaponRange = some 60 ∧ ¬((60 : ℚ) > 60) ∧
    ((entityCenter { x := 30, y := 40, z := 0 } none).1 - (entityCenter meleeT none).1) ^ 2 +
      ((entityCenter { x := 30, y := 40, z := 0 } none).2 - (entityCenter meleeT none).2) ^ 2 = 2500 ∧
    sqrtLe (2500 : ℚ) 60 = true ∧
    (aiStep swordEnv (33 / 1000) meleeAI {} meleeT).1.state = "chase" ∧
    (aiStep swordEnv (33 / 1000) meleeAI {} meleeT).1.state ≠ "attack" := by
  refine ⟨rfl, by norm_num, by norm_num [entityCenter, meleeT], by norm_num [sqrtLe], ?_, ?_⟩ <;>
    (norm_num [aiStep, swordEnv, meleeAI, meleeT, entityCenter, sqrtLe, aiChase,
               followPath, applyChaseSteering, normGtHalf, normLtNegHalf] <;> simp)

theorem attackTicks_player_held (w : WeaponStats) (input : InputComponent) (dt : ℚ)
    (hattack : input.attack = true) :
    ∀ (n : ℕ) (now last : ℚ), attackTicks true (some w) input dt n now true last =
      List.replicate n false := by
  intro n
  induction n with
  | zero => intro now last; rfl
  | succ k ih =>
    intro now last
    have hh : handleAttack ⟨true, true, some w, true, now⟩ input last = (false, last) := by
      simp [handleAttack, hattack]
    show attackTicks true (some w) input dt (k + 1) now true last = _
    rw [attackTicks, hh, hattack, ih (now + dt) last]
    rfl

theorem attackTicks_npc_cadence (w : WeaponStats) (input : InputComponent) (dt : ℚ)
    (hattack : input.attack = true) (hspell : input.activeSpell = "") :
    ∀ (n : ℕ) (now : ℚ) (prev : Bool) (last : ℚ),
      attackTicks false (some w) input dt n now prev last =
        cadenceFires w.cooldown (tickTimes now dt n) last := by
  intro n
  induction n with
  | zero => intro now prev last; rfl
  | succ k ih =>
    intro now prev last
    by_cases hc : now - last < w.cooldown
    · have hh : handleAttack ⟨false, prev, some w, true, now⟩ input last = (false, last) := by
        simp [handleAttack, hattack, hspell, hc]
      show attackTicks false (some w) input dt (k + 1) now prev last = _
      rw [attackTicks, hh, hattack, ih (now + dt) true last]
      show _ = cadenceFires w.cooldown (now :: tickTimes (now + dt) dt k) last
      rw [cadenceFires, if_neg (not_le.mpr hc)]
    · have hc' : now - last ≥ w.cooldown := not_lt.mp hc
      have hh : handleAttack ⟨false, prev, some w, true, now⟩ input last = (true, now) := by
        simp [handleAttack, hattack, hspell, hc]
      show attackTicks false (some w) input dt (k + 1) now prev last = _
      rw [attackTicks, hh, hattack, ih (now + dt) true now]
      show _ = cadenceFires w.cooldown (now :: tickTimes (now + dt) dt k) last
      rw [cadenceFires, if_pos hc']

/-- **C4** — Attack edge-triggering: holding the attack flag true for
5 consecutive ticks (weapon cooldown exceeding the tick duration, no
active ability, cooldown elapsed before the first tick) yields exactly
one attack initiation for a player-controlled entity — attacks fire
only on the false-to-true transition against the previous tick's
recorded input — while an AI-controlled entity (not in the players
table) fires exactly at the weapon-cooldown cadence (`cadenceFires`),
with no edge detection applied. -/
theorem attack_edge_triggering (w : WeaponStats) (input : InputComponent) (now0 dt last0 : ℚ)
    (hattack : input.attack = true) (hspell : input.activeSpell = "")
    (hcool : dt < w.cooldown)
    (hready : now0 - last0 ≥ w.cooldown) :
    (attackTicks true (some w) input dt 5 now0 false last0).count true = 1 ∧
    attackTicks false (some w) input dt 5 now0 false last0 =
      cadenceFires w.cooldown (tickTimes now0 dt 5) last0 := by
  constructor
  · have hh : handleAttack ⟨true, false, some w, true, now0⟩ input last0 = (true, now0) := by
      simp [handleAttack, hattack, hspell, not_lt.mpr hready]
    have h5 : attackTicks true (some w) input dt 5 now0 false last0 =
        true :: List.replicate 4 false := by
      show attackTicks true (some w) input dt (4 + 1) now0 false last0 = _
      rw [attackTicks, hh, hattack, attackTicks_player_held w input dt hattack 4 (now0 + dt) now0]
    rw [h5]
    rfl
  · exact attackTicks_npc_cadence w input dt hattack hspell 5 now0 false last0

/-- Witness for `attack_edge_triggering`: the starter sword (0.8s
cooldown) held for 5 ticks of 33ms starting at t = 100s with the
cooldown long elapsed. -/
theorem attack_edge_triggering_witness :
    heldInput.attack = true ∧ (33 / 1000 : ℚ) < swordStats.cooldown ∧
    (100 : ℚ) - 0 ≥ swordStats.cooldown ∧
    (attackTicks true (some swordStats) heldInput (33 / 1000) 5 100 false 0).count true = 1 ∧
    attackTicks false (some swordStats) heldInput (33 / 1000) 5 100 false 0 =
      cadenceFires swordStats.cooldown (tickTimes 100 (33 / 1000) 5) 0 := by
  have h := attack_edge_triggering swordStats heldInput 100 (33 / 1000) 0 rfl rfl
      (by norm_num [swordStats]) (by norm_num [swordStats])
  exact ⟨rfl, by norm_num [swordStats], by norm_num [swordStats], h.1, h.2⟩

theorem updateRespawnEntity_alive (dt : ℚ) (e : EntityState) (r : RespawnComponent)
    (he : e.respawn = some r) (hd : r.isDead = false) : updateRespawnEntity dt e = e := by
  unfold updateRespawnEntity
  rw [he]
  simp [hd]

theorem updateRespawn_iterate_alive (dt : ℚ) (e : EntityState) (r : RespawnComponent)
    (he : e.respawn = some r) (hd : r.isDead = false) :
    ∀ m : ℕ, (updateRespawnEntity dt)^[m] e = e := by
  intro m
  induction m with
  | zero => rfl
  | succ k ih => rw [Function.iterate_succ_apply, updateRespawnEntity_alive dt e r he hd, ih]

theorem updateRespawn_iterate (dt : ℚ) (hdt : 0 < dt) :
    ∀ (n : ℕ) (e : EntityState) (r : RespawnComponent),
      e.respawn = some r → r.isDead = true → 0 < r.respawnTimer →
      r.respawnTimer ≤ n * dt →
      ∃ τ : ℚ, ((updateRespawnEntity dt)^[n] e) =
        { e with
          respawn := some { spawnX := r.spawnX, spawnY := r.spawnY,
                            respawnTimer := τ, isDead := false },
          transform := some { x := r.spawnX, y := r.spawnY, z := 0 },
          physics := some { speed := 6 },
          sprite := some { width := 32, height := 32, color := (255, 255, 0, 255) },
          stats := some { maxHealth := 50, currentHealth := 50 },
          input := some {},
          ai := some { aiType := "wander", state := "wander", stateTimer := 1,
                       isAggressive := true, faction := 1, spawnX := r.spawnX,
                       spawnY := r.spawnY, leashRange := 600 } } := by
  intro n
  induction n with
  | zero =>
    intro e r he hd hpos hle
    exfalso
    simp only [Nat.cast_zero, zero_mul] at hle
    linarith
  | succ k ih =>
    intro e r he hd hpos hle
    rw [Function.iterate_succ_apply]
    by_cases hstop : r.respawnTimer - dt ≤ 0
    · have hstep : updateRespawnEntity dt e =
          { e with
            respawn := some { spawnX := r.spawnX, spawnY := r.spawnY,
                              respawnTimer := r.respawnTimer - dt, isDead := false },
            transform := some { x := r.spawnX, y := r.spawnY, z := 0 },
            physics := some { speed := 6 },
            sprite := some { width := 32, height := 32, color := (255, 255, 0, 255) },
            stats := some { maxHealth := 50, currentHealth := 50 },
            input := some {},
            ai := some { aiType := "wander", state := "wander", stateTimer := 1,
                         isAggressive := true, faction := 1, spawnX := r.spawnX,
                         spawnY := r.spawnY, leashRange := 600 } } := by
        unfold updateRespawnEntity
        rw [he]
        simp [hd, hstop]
      rw [hstep]
      refine ⟨r.respawnTimer - dt, ?_⟩
      exact updateRespawn_iterate_alive dt _
        { spawnX := r.spawnX, spawnY := r.spawnY,
          respawnTimer := r.respawnTimer - dt, isDead := false } rfl rfl k
    · have hstep : updateRespawnEntity dt e =
          { e with respawn := some { r with respawnTimer := r.respawnTimer - dt } } := by
        unfold updateRespawnEntity
        rw [he]
        simp [hd, hstop]
      rw [hstep]
      have hle' : r.respawnTimer - dt ≤ k * dt := by
        push_cast at hle ⊢
        linarith
      obtain ⟨τ, hτ⟩ := ih { e with respawn := some { r with respawnTimer := r.respawnTimer - dt } }
        { r with respawnTimer := r.respawnTimer - dt } rfl hd (by push_neg at hstop; exact hstop) hle'
      exact ⟨τ, hτ⟩

/-- **C5** (amended) — Death/respawn round trip for entities *holding
a Respawn component*: when a projectile hit drives such an entity's
health to zero, its Transform, Physics, Sprite, AI, Input and Stats
components are removed and the Respawn timer is armed at the fixed 30s
duration; once enough ticks have elapsed for the timer to cross zero,
the entity regains a Transform positioned exactly at its spawn
coordinates and Stats with current health equal to maximum health.
(The unamended claim covers every entity; an entity without a Respawn
component — a player — is left standing at zero health with all its
components, see `death_without_respawn_counterexample`.) -/
theorem death_respawn_round_trip (ownerID : ℕ) (damage : ℚ) (e : EntityState)
    (st : StatsComponent) (r : RespawnComponent)
    (hst : e.stats = some st) (hr : e.respawn = some r)
    (hdead : st.currentHealth - damage ≤ 0)
    (dt : ℚ) (hdt : 0 < dt) (n : ℕ) (hn : (30 : ℚ) ≤ n * dt) :
    (applyHit ownerID damage e).1.transform = none ∧
    (applyHit ownerID damage e).1.physics = none ∧
    (applyHit ownerID damage e).1.sprite = none ∧
    (applyHit ownerID damage e).1.ai = none ∧
    (applyHit ownerID damage e).1.input = none ∧
    (applyHit ownerID damage e).1.stats = none ∧
    (applyHit ownerID damage e).1.respawn = some { r with isDead := true, respawnTimer := 30 } ∧
    (∃ t' st', ((updateRespawnEntity dt)^[n] (applyHit ownerID damage e).1).transform = some t' ∧
      t'.x = r.spawnX ∧ t'.y = r.spawnY ∧
      ((updateRespawnEntity dt)^[n] (applyHit ownerID damage e).1).stats = some st' ∧
      st'.currentHealth = st'.maxHealth) := by
  have happly : (applyHit ownerID damage e).1 =
      { e with stats := none, sprite := none, physics := none, ai := none, input := none,
               transform := none,
               respawn := some { r with isDead := true, respawnTimer := 30 } } := by
    unfold applyHit
    rw [hst, hr]
    dsimp only
    split_ifs with h1 h2 <;> first
      | rfl
      | (exfalso; simp_all)
  refine ⟨by rw [happly], by rw [happly], by rw [happly], by rw [happly], by rw [happly],
          by rw [happly], by rw [happly], ?_⟩
  obtain ⟨τ, hτ⟩ := updateRespawn_iterate dt hdt n (applyHit ownerID damage e).1
    { r with isDead := true, respawnTimer := 30 } (by rw [happly]) rfl (by norm_num) hn
  refine ⟨{ x := r.spawnX, y := r.spawnY, z := 0 },
          { maxHealth := 50, currentHealth := 50 }, ?_, rfl, rfl, ?_, rfl⟩
  · rw [hτ]
  · rw [hτ]

/-- Witness for `death_respawn_round_trip`: `doomedNPC` (5 health,
Respawn at (100, 200)) is hit for 10 damage; one 30s tick later it is
back at its spawn with full health. -/
theorem death_respawn_round_trip_witness :
    (applyHit 1 10 doomedNPC).1.transform = none ∧
    (applyHit 1 10 doomedNPC).1.stats = none ∧
    (∃ t' st', ((updateRespawnEntity 30)^[1] (applyHit 1 10 doomedNPC).1).transform = some t' ∧
      t'.x = 100 ∧ t'.y = 200 ∧
      ((updateRespawnEntity 30)^[1] (applyHit 1 10 doomedNPC).1).stats = some st' ∧
      st'.currentHealth = st'.maxHealth) := by
  have h := death_respawn_round_trip 1 10 doomedNPC _ _ rfl rfl (by norm_num) 30 (by norm_num)
      1 (by norm_num)
  obtain ⟨h1, h2, h3, h4, h5, h6, h7, t', st', ht, hx, hy, hs, hfull⟩ := h
  exact ⟨h1, h6, t', st', ht, by rw [hx], by rw [hy], hs, hfull⟩

/-- Counterexample to **C5** as stated: a projectile hit drives a
Respawn-less entity (a player) to zero health; the claim requires its
components to be stripped and a Respawn timer armed, but the code
leaves every component in place (clamped at zero health) and no death
transition fires. -/
theorem death_without_respawn_counterexample :
    playerVictim.respawn = none ∧
    (applyHit 1 10 playerVictim).1.stats = some { maxHealth := 100, currentHealth := 0 } ∧
    (applyHit 1 10 playerVictim).1.transform = playerVictim.transform ∧
    playerVictim.transform ≠ none ∧
    (applyHit 1 10 playerVictim).2.1 = false := by
  refine ⟨rfl, ?_, ?_, by simp [playerVictim], ?_⟩ <;>
    norm_num [applyHit, playerVictim]

theorem projectileScan_no_hit (ownerID : ℕ) (damage px py : ℚ) :
    ∀ targets : List EntityState, (∀ e ∈ targets, hitPred ownerID px py e = false) →
      projectileScan ownerID damage px py targets = (targets, false) := by
  intro targets
  induction targets with
  | nil => intro _; rfl
  | cons e rest ih =>
    intro hall
    unfold projectileScan
    rw [hall e (List.mem_cons_self e rest)]
    simp only [Bool.false_eq_true, if_false]
    rw [ih (fun e' he' => hall e' (List.mem_cons_of_mem e he'))]

theorem projectileScan_first_hit (ownerID : ℕ) (damage px py : ℚ) :
    ∀ (targets : List EntityState) (i : ℕ), i < targets.length →
      (∀ j, j < i → hitPred ownerID px py (targets.getD j { id := 0 }) = false) →
      hitPred ownerID px py (targets.getD i { id := 0 }) = true →
      projectileScan ownerID damage px py targets =
        (targets.set i (applyHit ownerID damage (targets.getD i { id := 0 })).1, true) := by
  intro targets
  induction targets with
  | nil => intro i hi; exact absurd hi (by simp)
  | cons e rest ih =>
    intro i hi hbefore hhit
    cases i with
    | zero =>
      unfold projectileScan
      rw [show ((e :: rest).getD 0 { id := 0 }) = e from rfl] at hhit
      rw [hhit]
      rfl
    | succ k =>
      have h0 : hitPred ownerID px py e = false := hbefore 0 (Nat.succ_pos k)
      unfold projectileScan
      rw [h0]
      simp only [Bool.false_eq_true, if_false]
      rw [ih k (by simpa using hi) (fun j hj => hbefore (j + 1) (by omega)) hhit]
      rfl

theorem projectileScan_miss_unchanged (ownerID : ℕ) (damage px py : ℚ) :
    ∀ targets : List EntityState, (projectileScan ownerID damage px py targets).2 = false →
      (projectileScan ownerID damage px py targets).1 = targets := by
  intro targets
  induction targets with
  | nil => intro _; rfl
  | cons e rest ih =>
    intro hfalse
    unfold projectileScan at hfalse ⊢
    cases hp : hitPred ownerID px py e
    · rw [hp] at hfalse
      simp only [Bool.false_eq_true, if_false] at hfalse ⊢
      rw [ih hfalse]
    · rw [hp] at hfalse
      simp at hfalse

theorem applyHit_flags (ownerID : ℕ) (damage : ℚ) (e : EntityState) (st : StatsComponent)
    (hst : e.stats = some st) :
    ¬((applyHit ownerID damage e).2.1 = true ∧ (applyHit ownerID damage e).2.2 = true) ∧
    ((applyHit ownerID damage e).2.1 = true ↔
      (if st.currentHealth - damage < 0 then (0 : ℚ) else st.currentHealth - damage) ≤ 0 ∧
      e.respawn ≠ none) ∧
    ((applyHit ownerID damage e).2.2 = true ↔
      ¬((if st.currentHealth - damage < 0 then (0 : ℚ) else st.currentHealth - damage) ≤ 0) ∧
      ∃ a, e.ai = some a ∧ a.targetID = 0) ∧
    ((applyHit ownerID damage e).2.1 = false →
      (applyHit ownerID damage e).1.stats =
        some { st with currentHealth :=
          if st.currentHealth - damage < 0 then 0 else st.currentHealth - damage }) := by
  unfold applyHit
  rw [hst]
  dsimp only
  set hp := (if st.currentHealth - damage < 0 then (0 : ℚ) else st.currentHealth - damage)
    with hpdef
  by_cases hhp : hp ≤ 0
  · rw [if_pos hhp]
    cases hre : e.respawn with
    | some r =>
      dsimp only
      exact ⟨by simp, by simp [hhp, hre], by simp [hhp], by simp⟩
    | none =>
      dsimp only
      exact ⟨by simp, by simp [hre], by simp [hhp], by simp⟩
  · rw [if_neg hhp]
    cases hai : e.ai with
    | some a =>
      dsimp only
      by_cases hta : a.targetID = 0
      · rw [if_pos hta]
        refine ⟨by simp, by simp [hhp], ?_, by simp⟩
        exact iff_of_true rfl ⟨hhp, a, rfl, hta⟩
      · rw [if_neg hta]
        refine ⟨by simp, by simp [hhp], ?_, by simp⟩
        refine iff_of_false (by simp) ?_
        rintro ⟨-, a', ha', hta'⟩
        injection ha' with h
        subst h
        exact absurd hta' hta
    | none =>
      dsimp only
      refine ⟨by simp, by simp [hhp], ?_, by simp⟩
      refine iff_of_false (by simp) ?_
      rintro ⟨-, a', ha', -⟩
      exact Option.noConfusion ha'

/-- **C6** (amended) — Projectile hit resolution: the per-tick entity
scan walks the Stats-holders in order, skipping the projectile's
owner and entities without Transform or Sprite; the first
AABB-overlapping target (and only it) receives the hit — damage is
subtracted clamped at zero — while all other entities are untouched
(no piercing); at most one of the two follow-on effects fires, the
death transition exactly when health reaches zero *and* the target
holds a Respawn component, reactive aggro exactly when the target
survives *and* is an NPC with no current target (neither fires
otherwise); and whenever any target changed, the projectile was
destroyed.  (The unamended claim asserts exactly one effect always
fires after a hit; see `projectile_no_effect_counterexample`.) -/
theorem projectile_first_hit_resolution (ownerID : ℕ) (damage px py : ℚ) :
    (∀ targets : List EntityState, (∀ e ∈ targets, hitPred ownerID px py e = false) →
      projectileScan ownerID damage px py targets = (targets, false)) ∧
    (∀ (targets : List EntityState) (i : ℕ), i < targets.length →
      (∀ j, j < i → hitPred ownerID px py (targets.getD j { id := 0 }) = false) →
      hitPred ownerID px py (targets.getD i { id := 0 }) = true →
      projectileScan ownerID damage px py targets =
        (targets.set i (applyHit ownerID damage (targets.getD i { id := 0 })).1, true)) ∧
    (∀ (e : EntityState) (st : StatsComponent), e.stats = some st →
      ¬((applyHit ownerID damage e).2.1 = true ∧ (applyHit ownerID damage e).2.2 = true) ∧
      ((applyHit ownerID damage e).2.1 = true ↔
        (if st.currentHealth - damage < 0 then (0 : ℚ) else st.currentHealth - damage) ≤ 0 ∧
        e.respawn ≠ none) ∧
      ((applyHit ownerID damage e).2.2 = true ↔
        ¬((if st.currentHealth - damage < 0 then (0 : ℚ) else st.currentHealth - damage) ≤ 0) ∧
        ∃ a, e.ai = some a ∧ a.targetID = 0) ∧
      ((applyHit ownerID damage e).2.1 = false →
        (applyHit ownerID damage e).1.stats =
          some { st with currentHealth :=
            if st.currentHealth - damage < 0 then 0 else st.currentHealth - damage })) ∧
    (∀ (maps : ℤ → Option GameMap) (pt : TransformComponent) (proj : ProjectileComponent)
       (phys : Option PhysicsComponent) (targets : List EntityState),
      (updateProjectile maps pt proj phys targets).2.2 ≠ targets →
      (updateProjectile maps pt proj phys targets).2.1 = true) := by
  refine ⟨projectileScan_no_hit ownerID damage px py,
          projectileScan_first_hit ownerID damage px py,
          fun e st hst => applyHit_flags ownerID damage e st hst, ?_⟩
  intro maps pt proj phys targets hneq
  unfold updateProjectile at hneq ⊢
  dsimp only at hneq ⊢
  split_ifs at hneq ⊢ with h1 h2 h3
  · exact absurd rfl hneq
  · exact absurd rfl hneq
  · rfl
  · exact absurd (projectileScan_miss_unchanged _ _ _ _ targets
      (Bool.not_eq_true _ ▸ Bool.of_not_eq_true h3)) hneq

/-- Witness for `projectile_first_hit_resolution`: a projectile owned
by entity 4 over `playerVictim` (id 4, skipped as owner despite
overlapping) and `bareVictim` (id 5): the scan hits exactly the
second entity and stops. -/
theorem projectile_first_hit_resolution_witness :
    hitPred 4 0 0 playerVictim = false ∧
    hitPred 4 0 0 bareVictim = true ∧
    projectileScan 4 8 0 0 [playerVictim, bareVictim] =
      ([playerVictim, (applyHit 4 8 bareVictim).1], true) := by
  have h := projectile_first_hit_resolution 4 8 0 0
  have hp0 : hitPred 4 0 0 playerVictim = false := by
    norm_num [hitPred, playerVictim]
  have hp1 : hitPred 4 0 0 bareVictim = true := by
    norm_num [hitPred, bareVictim, rectOverlap]
  refine ⟨hp0, hp1, ?_⟩
  have hfirst := h.2.1 [playerVictim, bareVictim] 1 (by simp)
    (fun j hj => by
      have hj0 : j = 0 := by omega
      subst hj0
      exact hp0)
    hp1
  exact hfirst

/-- Counterexample to **C6** as stated: a projectile hit drives
`bareVictim` (Stats/Transform/Sprite only) to exactly zero health;
the claim says exactly one of the two follow-on effects fires, but
the target holds neither a Respawn component (no death transition)
nor an AI component (no reactive aggro): zero effects fire. -/
theorem projectile_no_effect_counterexample :
    hitPred 1 0 0 bareVictim = true ∧
    bareVictim.respawn = none ∧ bareVictim.ai = none ∧
    (applyHit 1 8 bareVictim).1.stats = some { maxHealth := 30, currentHealth := 0 } ∧
    (applyHit 1 8 bareVictim).2.1 = false ∧
    (applyHit 1 8 bareVictim).2.2 = false := by
  refine ⟨by norm_num [hitPred, bareVictim, rectOverlap], rfl, rfl, ?_, ?_, ?_⟩ <;>
    norm_num [applyHit, bareVictim]

theorem list_set_getD_self {α : Type} : ∀ (l : List α) (i : ℕ) (d : α),
    l.set i (l.getD i d) = l := by
  intro l
  induction l with
  | nil => intro i d; rfl
  | cons a t ih =>
    intro i d
    cases i with
    | zero => rfl
    | succ k =>
      show a :: t.set k (t.getD k d) = a :: t
      rw [ih k d]

theorem list_getD_set_self {α : Type} : ∀ (l : List α) (i : ℕ) (v d : α),
    i < l.length → (l.set i v).getD i d = v := by
  intro l
  induction l with
  | nil => intro i v d h; exact absurd h (by simp)
  | cons a t ih =>
    intro i v d h
    cases i with
    | zero => rfl
    | succ k =>
      show (t.set k v).getD k d = v
      exact ih k v d (by simpa using h)

theorem list_getD_set_ne {α : Type} : ∀ (l : List α) (i j : ℕ) (v d : α),
    j ≠ i → (l.set i v).getD j d = l.getD j d := by
  intro l
  induction l with
  | nil => intro i j v d _; rfl
  | cons a t ih =>
    intro i j v d hne
    cases i with
    | zero =>
      cases j with
      | zero => exact absurd rfl hne
      | succ m => rfl
    | succ k =>
      cases j with
      | zero => rfl
      | succ m =>
        show (t.set k v).getD m d = t.getD m d
        exact ih k m v d (by omega)

theorem addStack_first (itemID : String) (q : ℤ) :
    ∀ (l : List InvSlot) (k : ℕ), k < l.length →
      (∀ j, j < k → (l.getD j {}).itemID ≠ itemID) →
      (l.getD k {}).itemID = itemID →
      addStack l itemID q = some (l.set k { itemID := itemID,
                                            quantity := (l.getD k {}).quantity + q }) := by
  intro l
  induction l with
  | nil => intro k hk; exact absurd hk (by simp)
  | cons s rest ih =>
    intro k hk hbefore hat
    cases k with
    | zero =>
      unfold addStack
      rw [if_pos (show s.itemID = itemID from hat)]
      rfl
    | succ m =>
      have h0 : s.itemID ≠ itemID := hbefore 0 (Nat.succ_pos m)
      unfold addStack
      rw [if_neg (show ¬s.itemID = itemID from h0)]
      rw [ih m (by simpa using hk) (fun j hj => hbefore (j + 1) (by omega)) hat]
      rfl

theorem addItem_revert (inv : List InvSlot) (k : ℕ) (hk : k < inv.length)
    (d : ItemDefinition)
    (hget : itemsGet (inv.getD k {}).itemID = some d)
    (hfirst : ∀ j, j < k → (inv.getD j {}).itemID ≠ (inv.getD k {}).itemID) :
    addItem (inv.set k { itemID := (inv.getD k {}).itemID,
                         quantity := (inv.getD k {}).quantity - 1 })
      (inv.getD k {}).itemID 1 = some inv := by
  unfold addItem
  rw [hget]
  simp only [Option.isNone_some, Bool.false_eq_true, if_false]
  rw [addStack_first (inv.getD k {}).itemID 1
      (inv.set k { itemID := (inv.getD k {}).itemID,
                   quantity := (inv.getD k {}).quantity - 1 })
      k (by simpa using hk)
      (fun j hj => by
        rw [list_getD_set_ne _ _ _ _ _ (by omega)]
        exact hfirst j hj)
      (by rw [list_getD_set_self _ _ _ _ hk])]
  dsimp only
  rw [list_getD_set_self _ _ _ _ hk]
  rw [List.set_set]
  dsimp only
  have hq : (inv.getD k {}).quantity - 1 + 1 = (inv.getD k {}).quantity := by ring
  rw [hq]
  show some (inv.set k (inv.getD k {})) = some inv
  rw [list_set_getD_self]

/-- **C8** (amended) — Equip-action atomicity for failed requests: for
every equip request that fails (wrong target slot for the item's kind,
non-equippable or missing item, invalid inventory slot, or inventory
full during the swap of the previously equipped item), the entity's
EquipmentComponent is returned unchanged, and the InventoryComponent
is returned unchanged *provided no inventory slot before the source
slot holds the same item id*.  (The unamended claim has no proviso:
when the equipped item is stacked in an earlier slot too, the
inventory-full revert restacks the taken unit onto that earlier slot
instead of the source slot — see
`equip_revert_restack_counterexample`.) -/
theorem equip_failure_atomic (equip : EquipmentComponent) (inv : List InvSlot)
    (invSlot equipSlot : ℤ)
    (hfail : (equipItemInternal equip inv invSlot equipSlot).2.2 = false)
    (hfirst : ∀ j : ℕ, (j : ℤ) < invSlot →
      (inv.getD j {}).itemID ≠ (inv.getD invSlot.toNat {}).itemID) :
    (equipItemInternal equip inv invSlot equipSlot).1 = equip ∧
    (equipItemInternal equip inv invSlot equipSlot).2.1 = inv := by
  suffices h : equipItemInternal equip inv invSlot equipSlot = (equip, inv, false) by
    rw [h]
    exact ⟨rfl, rfl⟩
  unfold equipItemInternal at hfail ⊢
  by_cases h1 : invSlot < 0 ∨ invSlot ≥ (inv.length : ℤ)
  · rw [if_pos h1]
  · rw [if_neg h1] at hfail ⊢
    have hk : invSlot.toNat < inv.length := by omega
    dsimp only at hfail ⊢
    by_cases h2 : (inv.getD invSlot.toNat {}).itemID = ""
    · rw [if_pos h2]
    · rw [if_neg h2] at hfail ⊢
      cases hget : itemsGet (inv.getD invSlot.toNat {}).itemID with
      | none => rfl
      | some d =>
        rw [hget] at hfail
        dsimp only at hfail
        show (if d.equipmentSlot = -1 then ((equip, inv, false) : EquipmentComponent × List InvSlot × Bool)
          else if d.equipmentSlot ≠ equipSlot then (equip, inv, false)
          else _) = (equip, inv, false)
        by_cases h3 : d.equipmentSlot = -1
        · rw [if_pos h3]
        · rw [if_neg h3] at hfail ⊢
          by_cases h4 : d.equipmentSlot ≠ equipSlot
          · rw [if_pos h4]
          · rw [if_neg h4] at hfail ⊢
            by_cases h5 : (inv.getD invSlot.toNat {}).quantity - 1 ≤ 0
            · rw [if_pos h5] at hfail ⊢
              by_cases h6 : equip.slots.getD equipSlot.toNat "" = ""
              · rw [if_pos h6] at hfail
                exact absurd hfail (by simp)
              · rw [if_neg h6] at hfail
                rw [if_pos (by rw [list_getD_set_self _ _ _ _ hk] : ((inv.set invSlot.toNat
                    ({} : InvSlot)).getD invSlot.toNat {}).itemID = "")] at hfail
                exact absurd hfail (by simp)
            · rw [if_neg h5] at hfail ⊢
              by_cases h6 : equip.slots.getD equipSlot.toNat "" = ""
              · rw [if_pos h6] at hfail
                exact absurd hfail (by simp)
              · rw [if_neg h6] at hfail ⊢
                have hne : ((inv.set invSlot.toNat
                    { itemID := (inv.getD invSlot.toNat {}).itemID,
                      quantity := (inv.getD invSlot.toNat {}).quantity - 1 }).getD
                    invSlot.toNat {}).itemID ≠ "" := by
                  rw [list_getD_set_self _ _ _ _ hk]
                  exact h2
                rw [if_neg hne] at hfail ⊢
                cases hadd : addItem (inv.set invSlot.toNat
                    { itemID := (inv.getD invSlot.toNat {}).itemID,
                      quantity := (inv.getD invSlot.toNat {}).quantity - 1 })
                    (equip.slots.getD equipSlot.toNat "") 1 with
                | some inv2 =>
                  rw [hadd] at hfail
                  exact absurd hfail (by simp)
                | none =>
                  have hrevert := addItem_revert inv invSlot.toNat hk d hget
                    (fun j hj => hfirst j (by omega))
                  have hequip : ((equip.slots.set equipSlot.toNat
                      (inv.getD invSlot.toNat {}).itemID).set equipSlot.toNat
                      (equip.slots.getD equipSlot.toNat "")) = equip.slots := by
                    rw [List.set_set]
                    exact list_set_getD_self equip.slots equipSlot.toNat ""
                  show ((⟨(equip.slots.set equipSlot.toNat
                        (inv.getD invSlot.toNat {}).itemID).set equipSlot.toNat
                        (equip.slots.getD equipSlot.toNat "")⟩ : EquipmentComponent),
                    (addItem (inv.set invSlot.toNat
                        { itemID := (inv.getD invSlot.toNat {}).itemID,
                          quantity := (inv.getD invSlot.toNat {}).quantity - 1 })
                      (inv.getD invSlot.toNat {}).itemID 1).getD
                      (inv.set invSlot.toNat
                        { itemID := (inv.getD invSlot.toNat {}).itemID,
                          quantity := (inv.getD invSlot.toNat {}).quantity - 1 }),
                    false) = (equip, inv, false)
                  rw [hequip, hrevert]
                  rfl

/-- Witness for `equip_failure_atomic`: equipping the bow from slot 0
of a full two-slot inventory over an equipped sword fails (inventory
full during the swap) and returns both components unchanged. -/
theorem equip_failure_atomic_witness :
    (equipItemInternal swordEquip fullInv 0 5).2.2 = false ∧
    (equipItemInternal swordEquip fullInv 0 5).1 = swordEquip ∧
    (equipItemInternal swordEquip fullInv 0 5).2.1 = fullInv := by
  have hfail : (equipItemInternal swordEquip fullInv 0 5).2.2 = false := by decide
  have h := equip_failure_atomic swordEquip fullInv 0 5 hfail
    (fun j hj => absurd hj (by omega))
  exact ⟨hfail, h.1, h.2⟩

/-- Counterexample to **C8** as stated: the same failing request, but
the bow is stacked in slot 0 *and* slot 1 and the source slot is
slot 1.  The failed equip's revert restacks the taken unit onto slot
0, so the returned inventory differs from the original — the claim's
"identical before and after" does not hold. -/
theorem equip_revert_restack_counterexample :
    (equipItemInternal swordEquip dupInv 1 5).2.2 = false ∧
    (equipItemInternal swordEquip dupInv 1 5).1 = swordEquip ∧
    (equipItemInternal swordEquip dupInv 1 5).2.1 =
      [{ itemID := "bow_starter", quantity := 2 }, { itemID := "bow_starter", quantity := 1 }] ∧
    (equipItemInternal swordEquip dupInv 1 5).2.1 ≠ dupInv := by
  refine ⟨?_, ?_, ?_, ?_⟩ <;> decide

/-- **C9** (amended) — Outbound snapshot membership: the per-tick
snapshot contains an entry for every entity that holds *both* a
Transform and a Sprite component (and only those), each entry carrying
the entity id plus its Transform, Physics, Sprite, and Stats values,
`none` standing for each absent component.  (The unamended claim
promises an entry for every Sprite-holder even without a Transform;
the source iterates `Query[TransformComponent]`, so such entities are
absent — see `snapshot_sprite_only_counterexample`.) -/
theorem snapshot_membership (world : List EntityState) :
    (∀ e ∈ world, e.transform.isSome = true → e.sprite.isSome = true →
      snapshotOf e ∈ prepareStateUpdate world) ∧
    (∀ s ∈ prepareStateUpdate world, ∃ e ∈ world,
      s = snapshotOf e ∧ e.transform.isSome = true ∧ e.sprite.isSome = true) := by
  constructor
  · intro e he ht hs
    unfold prepareStateUpdate
    refine List.mem_filterMap.mpr ⟨e, he, ?_⟩
    obtain ⟨tv, htv⟩ := Option.isSome_iff_exists.mp ht
    obtain ⟨sv, hsv⟩ := Option.isSome_iff_exists.mp hs
    rw [htv, hsv]
    unfold snapshotOf
    rw [htv, hsv]
  · intro s hs
    unfold prepareStateUpdate at hs
    obtain ⟨e, he, hfe⟩ := List.mem_filterMap.mp hs
    cases ht : e.transform with
    | none =>
      rw [ht] at hfe
      exact absurd hfe (by simp)
    | some tv =>
      cases hsp : e.sprite with
      | none =>
        rw [ht, hsp] at hfe
        exact absurd hfe (by simp)
      | some sv =>
        rw [ht, hsp] at hfe
        refine ⟨e, he, ?_, by rw [ht]; rfl, by rw [hsp]; rfl⟩
        have hfe' : some (snapshotOf e) = some s := by
          unfold snapshotOf
          rw [ht, hsp]
          exact hfe
        injection hfe' with h
        exact h.symm

/-- Witness for `snapshot_membership`: a Transform+Sprite entity with
no Physics and no Stats appears in the snapshot with `none` for both. -/
theorem snapshot_membership_witness :
    snapshotOf fullEntity ∈ prepareStateUpdate [fullEntity, spriteOnly] ∧
    (snapshotOf fullEntity).physics = none ∧ (snapshotOf fullEntity).stats = none := by
  refine ⟨(snapshot_membership [fullEntity, spriteOnly]).1 fullEntity ?_ rfl rfl, rfl, rfl⟩
  simp

/-- Counterexample to **C9** as stated: an entity holding a Sprite but
no Transform produces no snapshot entry at all (the claim requires
one, with nil Transform). -/
theorem snapshot_sprite_only_counterexample :
    spriteOnly.sprite.isSome = true ∧ spriteOnly.transform = none ∧
    prepareStateUpdate [spriteOnly] = [] :=
  ⟨rfl, rfl, rfl⟩
